import Mathlib

/-!
Shallow embedding of the document tax-computation engine of `sync-tabula-cloud`
(`src/tabula_cloud_sync/models/documentos.py`), together with theorems about it.

Python `Decimal` values are modelled as exact rationals (`ℚ`); `int` fields as
`ℤ`.  The two places where the source divides two Python `int`s with `/`
(`Decimal(self.tasa_iva / 100)` and `Decimal(self.proporcion_imputa_iva / 100)`)
produce a binary float that is then widened to `Decimal`; they are modelled as
the exact quotient, which is what the source computes up to one part in 2^52.
-/

namespace Tabula

/-- Truncation toward zero, the behaviour of Python `int()` on a `Decimal`. -/
def truncQ (x : ℚ) : ℤ := if 0 ≤ x then ⌊x⌋ else ⌈x⌉

/-- `round_ext` from `models/documentos.py`.  The Python locals are
`factor = 10 ** decimales`, `entero = int(num * factor)` (truncation toward
zero) and `decimal = num * factor - entero`; the result is
`(entero + 1) / factor` when `decimal >= 0.5` and `entero / factor`
otherwise.  Written here with the locals inlined. -/
def round_ext (num : ℚ) (decimales : ℤ := 0) : ℚ :=
  if (1 : ℚ)/2 ≤ num * (10 : ℚ) ^ decimales - truncQ (num * (10 : ℚ) ^ decimales) then
    ((truncQ (num * (10 : ℚ) ^ decimales) : ℚ) + 1) / (10 : ℚ) ^ decimales
  else
    (truncQ (num * (10 : ℚ) ^ decimales) : ℚ) / (10 : ℚ) ^ decimales

/-- The CurrencyConverter of the spec (§4.5): the `round_ext(x * tasa_cambio, p)`
pattern used throughout the source for the base-currency mirrors. -/
def mirror (amount rate : ℚ) (places : ℤ) : ℚ := round_ext (amount * rate) places

/-- `AfectacionIVAEnum` (package `tabula_enums`, not vendored under `src/`);
constructors and SIFEN numeric codes fixed by the spec's TaxAffectation and by
the comparisons `E731 == 1..4` in `Documento.set_calcular_totales`. -/
inductive AfectacionIVAEnum where
  | GRAVADO_IVA
  | EXONERADO
  | EXENTO
  | GRAVADO_PARCIAL
  deriving DecidableEq, Repr

/-- SIFEN numeric code of each affectation (the value compared against the
integer literals in `set_calcular_totales`). -/
def AfectacionIVAEnum.val : AfectacionIVAEnum → ℤ
  | .GRAVADO_IVA => 1
  | .EXONERADO => 2
  | .EXENTO => 3
  | .GRAVADO_PARCIAL => 4

/-- Numeric code of an optional affectation; `none` (Python `None`) compares
unequal to every SIFEN code, modelled by the out-of-range code `0`. -/
def afectCode : Option AfectacionIVAEnum → ℤ
  | some a => a.val
  | none => 0

/-- `TipoImpuestoAfectadoEnum` (package `tabula_enums`): the members referenced
by the source. -/
inductive TipoImpuestoAfectadoEnum where
  | IVA
  | RENTA
  | IVA_RENTA
  deriving DecidableEq, Repr

/-- The membership test `tipo_impuesto_afectado in (IVA, IVA_RENTA)` guarding
the IVA block of `set_calcular_totales`. -/
def aplicaIVA : TipoImpuestoAfectadoEnum → Bool
  | .IVA => true
  | .IVA_RENTA => true
  | .RENTA => false

/-- `cal_base_gravada_iva` from `tabula_cloud_sync/models/documentos.py`. -/
def cal_base_gravada_iva (monto_neto : ℚ) (tasa_iva proporcion_iva : ℤ)
    (afectacion_iva : Option AfectacionIVAEnum) : ℚ :=
  if tasa_iva = 0 ∨ proporcion_iva = 0 then 0
  else if afectacion_iva = some .GRAVADO_PARCIAL ∨ afectacion_iva = some .GRAVADO_IVA then
    100 * monto_neto * (proporcion_iva : ℚ) / (10000 + (tasa_iva : ℚ) * (proporcion_iva : ℚ))
  else 0

/-- The fields of the pydantic model `DocumentoDetalle` that take part in the
computation (identification and text fields are omitted).  Python `Decimal`
fields are `ℚ`, `int` fields are `ℤ`, the affectation is optional as in the
source (`AfectacionIVAEnum | int | None`). -/
structure DocumentoDetalle where
  cantidad : ℚ := 1
  precio : ℚ := 0
  tasa_cambio : ℚ := 1
  monto_bruto : ℚ := 0
  descuento : ℚ := 0
  descuento_global : ℚ := 0
  monto_neto : ℚ := 0
  monto_neto_mb : ℚ := 0
  afectacion_iva : Option AfectacionIVAEnum := none
  proporcion_iva : ℤ := 100
  tasa_iva : ℤ := 0
  base_gravada_iva : ℚ := 0
  liquidacion_iva : ℚ := 0
  base_exenta_iva : ℚ := 0
  base_gravada_iva_mb : ℚ := 0
  liquidacion_iva_mb : ℚ := 0
  base_exenta_iva_mb : ℚ := 0
  imputa_iva : Bool := true
  proporcion_imputa_iva : ℤ := 100
  base_gravada_imputa_iva : ℚ := 0
  base_gravada_imputa_iva_mb : ℚ := 0
  liquidacion_iva_imputa : ℚ := 0
  liquidacion_iva_imputa_mb : ℚ := 0
  base_no_imputa_iva : ℚ := 0
  base_no_imputa_iva_mb : ℚ := 0
  monto_neto_sin_iva : ℚ := 0
  monto_neto_sin_iva_mb : ℚ := 0
  moneda_decimal : ℤ := 1

/-- The `model_validator(mode="after")` `DocumentoDetalle.calcular_valores`:
steps 2-18 in the order written in the source.  Each `let` shadows the
corresponding field, so a step reads the updated value of a field exactly when
an *earlier* step assigned it, and the stale input value otherwise (in
particular step 11 reads `liquidacion_iva_imputa` before step 15 assigns it,
as the source does). -/
def calcular_valores (s : DocumentoDetalle) : DocumentoDetalle :=
  -- 2. monto_bruto (guarded by `self.precio` being truthy)
  let monto_bruto := if s.precio ≠ 0 then
      round_ext (s.precio * s.cantidad) s.moneda_decimal else s.monto_bruto
  -- 3. monto_neto
  let monto_neto := round_ext
      (monto_bruto - s.descuento * s.cantidad - s.descuento_global * s.cantidad)
      s.moneda_decimal
  -- 4. monto_neto_mb
  let monto_neto_mb := round_ext (monto_neto * s.tasa_cambio) 0
  -- 5. base_gravada_iva
  let base_gravada_iva := if s.tasa_iva ≠ 0 then
      round_ext (cal_base_gravada_iva monto_neto s.tasa_iva s.proporcion_iva
        s.afectacion_iva) s.moneda_decimal
    else s.base_gravada_iva
  -- 6. base_gravada_iva_mb (note: rounded to `moneda_decimal`, not 0)
  let base_gravada_iva_mb := round_ext (base_gravada_iva * s.tasa_cambio) s.moneda_decimal
  -- 7. liquidacion_iva (`Decimal(self.tasa_iva / 100)` modelled exactly)
  let liquidacion_iva := if s.tasa_iva ≠ 0 then
      round_ext (cal_base_gravada_iva monto_neto s.tasa_iva s.proporcion_iva
        s.afectacion_iva * ((s.tasa_iva : ℚ) / 100)) s.moneda_decimal
    else s.liquidacion_iva
  -- 8. liquidacion_iva_mb
  let liquidacion_iva_mb := round_ext (liquidacion_iva * s.tasa_cambio) 0
  -- 9. base_exenta_iva
  let base_exenta_iva :=
    if s.afectacion_iva = some .GRAVADO_PARCIAL ∨ s.afectacion_iva = some .GRAVADO_IVA then
      round_ext ((100 * monto_neto * (100 - (s.proporcion_iva : ℚ))) /
        (10000 + (s.tasa_iva : ℚ) * (s.proporcion_iva : ℚ))) s.moneda_decimal
    else monto_neto
  -- 10. base_exenta_iva_mb
  let base_exenta_iva_mb := round_ext (base_exenta_iva * s.tasa_cambio) 0
  -- 11. monto_neto_sin_iva (reads the not-yet-recomputed liquidacion_iva_imputa;
  -- `round_ext` is called with its default `decimales=0`)
  let monto_neto_sin_iva := round_ext (monto_neto - s.liquidacion_iva_imputa) 0
  -- 12. monto_neto_sin_iva_mb (default 0 places)
  let monto_neto_sin_iva_mb := round_ext (monto_neto_sin_iva * s.tasa_cambio) 0
  -- 13. base_gravada_imputa_iva (`Decimal(self.proporcion_imputa_iva / 100)`)
  let base_gravada_imputa_iva := if s.imputa_iva then
      round_ext (cal_base_gravada_iva monto_neto s.tasa_iva s.proporcion_iva
        s.afectacion_iva * ((s.proporcion_imputa_iva : ℚ) / 100)) s.moneda_decimal
    else s.base_gravada_imputa_iva
  -- 14. base_gravada_imputa_iva_mb
  let base_gravada_imputa_iva_mb := round_ext (base_gravada_imputa_iva * s.tasa_cambio) 0
  -- 15. liquidacion_iva_imputa
  let liquidacion_iva_imputa := if s.imputa_iva then
      round_ext (liquidacion_iva * ((s.proporcion_imputa_iva : ℚ) / 100)) s.moneda_decimal
    else s.liquidacion_iva_imputa
  -- 16. liquidacion_iva_imputa_mb
  let liquidacion_iva_imputa_mb := round_ext (liquidacion_iva_imputa * s.tasa_cambio) 0
  -- 17. base_no_imputa_iva
  let base_no_imputa_iva := round_ext
      (monto_neto - base_gravada_imputa_iva - liquidacion_iva_imputa) s.moneda_decimal
  -- 18. base_no_imputa_iva_mb
  let base_no_imputa_iva_mb := round_ext (base_no_imputa_iva * s.tasa_cambio) 0
  { s with
    monto_bruto := monto_bruto
    monto_neto := monto_neto
    monto_neto_mb := monto_neto_mb
    base_gravada_iva := base_gravada_iva
    base_gravada_iva_mb := base_gravada_iva_mb
    liquidacion_iva := liquidacion_iva
    liquidacion_iva_mb := liquidacion_iva_mb
    base_exenta_iva := base_exenta_iva
    base_exenta_iva_mb := base_exenta_iva_mb
    monto_neto_sin_iva := monto_neto_sin_iva
    monto_neto_sin_iva_mb := monto_neto_sin_iva_mb
    base_gravada_imputa_iva := base_gravada_imputa_iva
    base_gravada_imputa_iva_mb := base_gravada_imputa_iva_mb
    liquidacion_iva_imputa := liquidacion_iva_imputa
    liquidacion_iva_imputa_mb := liquidacion_iva_imputa_mb
    base_no_imputa_iva := base_no_imputa_iva
    base_no_imputa_iva_mb := base_no_imputa_iva_mb }

/-- The line-item input record of the spec (§6): the caller-supplied fields of
`DocumentoDetalle`; every derived field starts at its pydantic default. -/
structure LineItem where
  cantidad : ℚ := 1
  precio : ℚ := 0
  descuento : ℚ := 0
  descuento_global : ℚ := 0
  tasa_cambio : ℚ := 1
  afectacion_iva : Option AfectacionIVAEnum := none
  proporcion_iva : ℤ := 100
  tasa_iva : ℤ := 0
  imputa_iva : Bool := true
  proporcion_imputa_iva : ℤ := 100
  moneda_decimal : ℤ := 1

/-- Instantiating `DocumentoDetalle` from caller inputs: the derived fields
carry their pydantic defaults (all `0`). -/
def LineItem.toDetalle (i : LineItem) : DocumentoDetalle :=
  { cantidad := i.cantidad
    precio := i.precio
    descuento := i.descuento
    descuento_global := i.descuento_global
    tasa_cambio := i.tasa_cambio
    afectacion_iva := i.afectacion_iva
    proporcion_iva := i.proporcion_iva
    tasa_iva := i.tasa_iva
    imputa_iva := i.imputa_iva
    proporcion_imputa_iva := i.proporcion_imputa_iva
    moneda_decimal := i.moneda_decimal }

/-- `compute_line` of the spec (§6): constructing a `DocumentoDetalle` runs the
`calcular_valores` validator. -/
def compute_line (i : LineItem) : DocumentoDetalle :=
  calcular_valores i.toDetalle

/-- The fields of the pydantic model `Documento` read or written by
`set_calcular_totales` (header and identification fields that the computation
never touches are omitted). -/
structure Documento where
  tipo_impuesto_afectado : TipoImpuestoAfectadoEnum := .IVA_RENTA
  tasa_cambio : ℚ := 1
  moneda_decimal : ℤ := 1
  monto_exonerado : ℚ := 0
  monto_exenta : ℚ := 0
  subtotal_exo_exe : ℚ := 0
  subtotal_iva_5 : ℚ := 0
  subtotal_iva_10 : ℚ := 0
  st_base_gravada_imputa_iva : ℚ := 0
  st_base_no_imputa_iva : ℚ := 0
  st_liquidacion_iva_imputa : ℚ := 0
  subtotal_imputa_iva : ℚ := 0
  descuento_item : ℚ := 0
  descuento_global : ℚ := 0
  base_gravada_5 : ℚ := 0
  base_gravada_10 : ℚ := 0
  iva_5 : ℚ := 0
  iva_10 : ℚ := 0
  monto_total : ℚ := 0
  monto_exonerado_mb : ℚ := 0
  monto_exenta_mb : ℚ := 0
  base_gravada_5_mb : ℚ := 0
  base_gravada_10_mb : ℚ := 0
  iva_5_mb : ℚ := 0
  iva_10_mb : ℚ := 0
  monto_total_mb : ℚ := 0
  detalles : List DocumentoDetalle := []

/-- The in-place update `detalle.tasa_cambio = self.tasa_cambio` performed on
each detalle inside the IVA guard of the aggregation loop. -/
def upd_det (g : Bool) (tc : ℚ) (det : DocumentoDetalle) : DocumentoDetalle :=
  if g then { det with tasa_cambio := tc } else det

/-- Loop contribution to `monto_exenta` (E731 codes 3 and 4). -/
def apExenta (g : Bool) (det : DocumentoDetalle) : ℚ :=
  if g then (if afectCode det.afectacion_iva = 3 then det.monto_neto else 0) +
    (if afectCode det.afectacion_iva = 4 then det.base_exenta_iva else 0) else 0

/-- Loop contribution to `monto_exonerado` (E731 code 2). -/
def apExonerado (g : Bool) (det : DocumentoDetalle) : ℚ :=
  if g then (if afectCode det.afectacion_iva = 2 then det.monto_neto else 0) else 0

/-- Loop contribution to `subtotal_iva_5`. -/
def apSub5 (g : Bool) (det : DocumentoDetalle) : ℚ :=
  if g then
    (if afectCode det.afectacion_iva = 1 ∧ det.tasa_iva = 5 then det.monto_neto else 0) +
    (if afectCode det.afectacion_iva = 4 ∧ det.tasa_iva = 5 then
      det.base_gravada_iva + det.liquidacion_iva else 0)
  else 0

/-- Loop contribution to `subtotal_iva_10`. -/
def apSub10 (g : Bool) (det : DocumentoDetalle) : ℚ :=
  if g then
    (if afectCode det.afectacion_iva = 1 ∧ det.tasa_iva = 10 then det.monto_neto else 0) +
    (if afectCode det.afectacion_iva = 4 ∧ det.tasa_iva = 10 then
      det.base_gravada_iva + det.liquidacion_iva else 0)
  else 0

/-- Loop contribution to `iva_5`. -/
def apIva5 (g : Bool) (det : DocumentoDetalle) : ℚ :=
  if g then (if det.tasa_iva = 5 then det.liquidacion_iva else 0) else 0

/-- Loop contribution to `iva_10`. -/
def apIva10 (g : Bool) (det : DocumentoDetalle) : ℚ :=
  if g then (if det.tasa_iva = 10 then det.liquidacion_iva else 0) else 0

/-- Loop contribution to `base_gravada_5`. -/
def apBase5 (g : Bool) (det : DocumentoDetalle) : ℚ :=
  if g then (if det.tasa_iva = 5 then det.base_gravada_iva else 0) else 0

/-- Loop contribution to `base_gravada_10`. -/
def apBase10 (g : Bool) (det : DocumentoDetalle) : ℚ :=
  if g then (if det.tasa_iva = 10 then det.base_gravada_iva else 0) else 0

/-- Loop contribution to `subtotal_imputa_iva`. -/
def apSubImputa (g : Bool) (det : DocumentoDetalle) : ℚ :=
  if g then (if det.imputa_iva then det.monto_neto else 0) else 0

/-- Loop contribution to `st_base_gravada_imputa_iva`. -/
def apStBaseImputa (g : Bool) (det : DocumentoDetalle) : ℚ :=
  if g then (if det.imputa_iva then det.base_gravada_imputa_iva else 0) else 0

/-- Loop contribution to `st_liquidacion_iva_imputa`. -/
def apStLiqImputa (g : Bool) (det : DocumentoDetalle) : ℚ :=
  if g then (if det.imputa_iva then det.liquidacion_iva_imputa else 0) else 0

/-- Loop contribution to `st_base_no_imputa_iva`. -/
def apStNoImputa (g : Bool) (det : DocumentoDetalle) : ℚ :=
  if g then (if det.imputa_iva then det.base_no_imputa_iva else det.monto_neto) else 0

/-- Loop contribution to `descuento_item` (outside the IVA guard). -/
def apDescItem (det : DocumentoDetalle) : ℚ :=
  round_ext (det.descuento * det.cantidad) 8

/-- Loop contribution to `descuento_global` (outside the IVA guard). -/
def apDescGlobal (det : DocumentoDetalle) : ℚ :=
  round_ext (det.descuento_global * det.cantidad) 8

/-- One iteration of the `for detalle in self.detalles` loop of
`Documento.set_calcular_totales`: the detalle's `tasa_cambio` is overwritten
inside the IVA guard, then the accumulators are advanced. -/
def agg_body (g : Bool) (tc : ℚ) (acc : Documento) (det0 : DocumentoDetalle) : Documento :=
  let det := upd_det g tc det0
  { acc with
    monto_exenta := acc.monto_exenta + apExenta g det
    monto_exonerado := acc.monto_exonerado + apExonerado g det
    subtotal_iva_5 := acc.subtotal_iva_5 + apSub5 g det
    subtotal_iva_10 := acc.subtotal_iva_10 + apSub10 g det
    iva_5 := acc.iva_5 + apIva5 g det
    iva_10 := acc.iva_10 + apIva10 g det
    base_gravada_5 := acc.base_gravada_5 + apBase5 g det
    base_gravada_10 := acc.base_gravada_10 + apBase10 g det
    subtotal_imputa_iva := acc.subtotal_imputa_iva + apSubImputa g det
    st_base_gravada_imputa_iva := acc.st_base_gravada_imputa_iva + apStBaseImputa g det
    st_liquidacion_iva_imputa := acc.st_liquidacion_iva_imputa + apStLiqImputa g det
    st_base_no_imputa_iva := acc.st_base_no_imputa_iva + apStNoImputa g det
    descuento_item := acc.descuento_item + apDescItem det
    descuento_global := acc.descuento_global + apDescGlobal det
    monto_total := acc.monto_total + det.monto_neto
    monto_total_mb := acc.monto_total_mb + det.monto_neto_mb }

/-- `Documento.set_calcular_totales`: reset the totals (the two discount
accumulators are *not* reset), fold the detalles, then apply the final
rounding/mirroring block.  `monto_total_mb` is not touched by the final block,
exactly as in the source. -/
def set_calcular_totales (doc : Documento) : Documento :=
  let g := aplicaIVA doc.tipo_impuesto_afectado
  let d0 : Documento := { doc with
    monto_exonerado := 0, monto_exenta := 0, base_gravada_5 := 0,
    base_gravada_10 := 0, iva_5 := 0, iva_10 := 0, monto_total := 0,
    monto_exonerado_mb := 0, monto_exenta_mb := 0, base_gravada_5_mb := 0,
    base_gravada_10_mb := 0, iva_5_mb := 0, iva_10_mb := 0, monto_total_mb := 0,
    subtotal_iva_5 := 0, subtotal_iva_10 := 0, subtotal_imputa_iva := 0,
    st_base_gravada_imputa_iva := 0, st_liquidacion_iva_imputa := 0,
    st_base_no_imputa_iva := 0 }
  let d1 := doc.detalles.foldl (agg_body g doc.tasa_cambio) d0
  { d1 with
    detalles := doc.detalles.map (upd_det g doc.tasa_cambio)
    subtotal_exo_exe := round_ext (d1.monto_exonerado + d1.monto_exenta) doc.moneda_decimal
    monto_exonerado_mb := round_ext (d1.monto_exonerado * doc.tasa_cambio) 0
    monto_exenta_mb := round_ext (d1.monto_exenta * doc.tasa_cambio) 0
    base_gravada_10 := round_ext d1.base_gravada_10 doc.moneda_decimal
    base_gravada_10_mb :=
      round_ext (round_ext d1.base_gravada_10 doc.moneda_decimal * doc.tasa_cambio) 0
    base_gravada_5 := round_ext d1.base_gravada_5 doc.moneda_decimal
    base_gravada_5_mb :=
      round_ext (round_ext d1.base_gravada_5 doc.moneda_decimal * doc.tasa_cambio) 0
    iva_10 := round_ext d1.iva_10 doc.moneda_decimal
    iva_10_mb := round_ext (round_ext d1.iva_10 doc.moneda_decimal * doc.tasa_cambio) 0
    iva_5 := round_ext d1.iva_5 doc.moneda_decimal
    iva_5_mb := round_ext (round_ext d1.iva_5 doc.moneda_decimal * doc.tasa_cambio) 0
    monto_total := round_ext d1.monto_total doc.moneda_decimal }

/-! ### Concrete inputs used by witnesses, counterexamples and failing inputs -/

/-- An exempt line: quantity 2, price 50, rate 10, 0 decimal places. -/
def exC1 : LineItem :=
  { cantidad := 2, precio := 50, afectacion_iva := some .EXENTO,
    tasa_iva := 10, moneda_decimal := 0 }

/-- Scenario B of the spec: quantity 1, price 200, GRAVADO_PARCIAL, rate 5,
gravada proportion 50, 0 decimal places. -/
def exB : LineItem :=
  { cantidad := 1, precio := 200, afectacion_iva := some .GRAVADO_PARCIAL,
    tasa_iva := 5, proporcion_iva := 50, moneda_decimal := 0 }

/-- A fully-taxed line with rate 0: quantity 1, price 100, GRAVADO, rate 0,
proportion 100, 0 decimal places. -/
def exRate0 : LineItem :=
  { cantidad := 1, precio := 100, afectacion_iva := some .GRAVADO_IVA,
    tasa_iva := 0, proporcion_iva := 100, moneda_decimal := 0 }

/-- An input violating every validity rule of the claim: negative quantity,
rate outside `{0,5,10}`, proportion outside `[0,100]`, non-positive exchange
rate, decimal places outside `[0,8]`. -/
def exInvalid : LineItem :=
  { cantidad := -1, precio := 100, tasa_cambio := -2,
    afectacion_iva := some .GRAVADO_IVA, tasa_iva := 7, proporcion_iva := 150,
    moneda_decimal := 9 }

/-- A taxed line with 2 decimal places whose taxable base is fractional:
quantity 1, price 110.11, GRAVADO, rate 10, exchange rate 1. -/
def exDec2 : LineItem :=
  { cantidad := 1, precio := 11011/100, afectacion_iva := some .GRAVADO_IVA,
    tasa_iva := 10, proporcion_iva := 100, moneda_decimal := 2 }

/-- A creditable taxed line: quantity 1, price 110, GRAVADO, rate 10,
credit flag set with proportion 100, 0 decimal places. -/
def exCredito : LineItem :=
  { cantidad := 1, precio := 110, afectacion_iva := some .GRAVADO_IVA,
    tasa_iva := 10, proporcion_iva := 100, imputa_iva := true,
    proporcion_imputa_iva := 100, moneda_decimal := 0 }

/-- A line result with net 0.3 at one decimal place: its base-currency net is
`round_ext (0.3 * 1) 0 = 0` (the values are those of
`compute_line` on quantity 1, price 0.3, EXENTO, rate 0, exchange rate 1). -/
def detPeq : DocumentoDetalle :=
  { cantidad := 1, precio := 3/10, tasa_cambio := 1, monto_bruto := 3/10,
    monto_neto := 3/10, monto_neto_mb := 0, afectacion_iva := some .EXENTO,
    tasa_iva := 0, base_exenta_iva := 3/10, base_no_imputa_iva := 3/10,
    moneda_decimal := 1 }

/-- A document holding two copies of `detPeq`, exchange rate 1, one decimal
place. -/
def docPeq : Documento :=
  { tasa_cambio := 1, moneda_decimal := 1, detalles := [detPeq, detPeq] }

/-! ### Basic facts about `round_ext` -/

lemma factor_pos (d : ℤ) : (0 : ℚ) < (10 : ℚ) ^ d :=
  zpow_pos (by norm_num) d

lemma truncQ_of_nonneg {x : ℚ} (h : 0 ≤ x) : truncQ x = ⌊x⌋ := if_pos h

lemma truncQ_intCast (n : ℤ) : truncQ (n : ℚ) = n := by
  unfold truncQ
  rcases le_or_lt 0 ((n : ℚ)) with h | h
  · rw [if_pos h, Int.floor_intCast]
  · rw [if_neg (not_le.mpr h), Int.ceil_intCast]

/-- Exact case: when `num * 10^d` is an integer, `round_ext` returns `num`. -/
lemma round_ext_self (num : ℚ) (d : ℤ) (n : ℤ) (h : num * (10 : ℚ) ^ d = n) :
    round_ext num d = num := by
  have hF : (0 : ℚ) < (10 : ℚ) ^ d := factor_pos d
  unfold round_ext
  rw [h, truncQ_intCast]
  rw [if_neg (by norm_num)]
  rw [eq_comm, eq_div_iff hF.ne', h]

lemma round_ext_zero (d : ℤ) : round_ext 0 d = 0 :=
  round_ext_self 0 d 0 (by push_cast; ring)

/-- For a nonnegative argument, `round_ext` is round-half-up:
`round_ext num d = ⌊num * 10^d + 1/2⌋ / 10^d`. -/
lemma round_ext_of_nonneg (num : ℚ) (d : ℤ) (h : 0 ≤ num) :
    round_ext num d = (⌊num * (10 : ℚ) ^ d + 1/2⌋ : ℚ) / (10 : ℚ) ^ d := by
  have hF : (0 : ℚ) < (10 : ℚ) ^ d := factor_pos d
  have hy : 0 ≤ num * (10 : ℚ) ^ d := mul_nonneg h hF.le
  have h1 : ((⌊num * (10 : ℚ) ^ d⌋ : ℚ)) ≤ num * (10 : ℚ) ^ d :=
    Int.floor_le _
  have h2 : num * (10 : ℚ) ^ d < ⌊num * (10 : ℚ) ^ d⌋ + 1 :=
    Int.lt_floor_add_one _
  unfold round_ext
  rw [truncQ_of_nonneg hy]
  by_cases hc : (1 : ℚ)/2 ≤ num * (10 : ℚ) ^ d - ⌊num * (10 : ℚ) ^ d⌋
  · rw [if_pos hc]
    have hfl : ⌊num * (10 : ℚ) ^ d + 1/2⌋ = ⌊num * (10 : ℚ) ^ d⌋ + 1 := by
      rw [Int.floor_eq_iff]
      constructor
      · push_cast; linarith
      · push_cast; linarith
    rw [hfl]
    push_cast
    ring_nf
  · rw [if_neg hc]
    have hfl : ⌊num * (10 : ℚ) ^ d + 1/2⌋ = ⌊num * (10 : ℚ) ^ d⌋ := by
      rw [Int.floor_eq_iff]
      constructor
      · linarith
      · linarith
    rw [hfl]

/-- For a negative argument, `round_ext` always truncates toward zero (the
Python fractional remainder is then nonpositive, never `>= 0.5`). -/
lemma round_ext_of_neg (num : ℚ) (d : ℤ) (h : num < 0) :
    round_ext num d = (⌈num * (10 : ℚ) ^ d⌉ : ℚ) / (10 : ℚ) ^ d := by
  have hF : (0 : ℚ) < (10 : ℚ) ^ d := factor_pos d
  have hy : num * (10 : ℚ) ^ d < 0 := mul_neg_of_neg_of_pos h hF
  unfold round_ext truncQ
  rw [if_neg (not_le.mpr hy)]
  have hle : num * (10 : ℚ) ^ d ≤ ⌈num * (10 : ℚ) ^ d⌉ := Int.le_ceil _
  rw [if_neg (by intro hcon; linarith)]

/-- Concrete evaluation helper (nonnegative argument): supply the integer
`n = ⌊num * 10^d + 1/2⌋` and the rounded value `r = n / 10^d`. -/
lemma round_ext_eval {num : ℚ} {d : ℤ} (n : ℤ) {r : ℚ} (h0 : 0 ≤ num)
    (hn : (n : ℚ) ≤ num * (10 : ℚ) ^ d + 1/2)
    (hn' : num * (10 : ℚ) ^ d + 1/2 < (n : ℚ) + 1)
    (hr : (n : ℚ) / (10 : ℚ) ^ d = r) : round_ext num d = r := by
  rw [round_ext_of_nonneg num d h0,
    show ⌊num * (10 : ℚ) ^ d + 1/2⌋ = n from
      Int.floor_eq_iff.mpr ⟨hn, by exact_mod_cast hn'⟩, hr]

/-- Concrete evaluation helper (negative argument). -/
lemma round_ext_eval_neg {num : ℚ} {d : ℤ} (n : ℤ) {r : ℚ} (h0 : num < 0)
    (hn : (n : ℚ) - 1 < num * (10 : ℚ) ^ d)
    (hn' : num * (10 : ℚ) ^ d ≤ (n : ℚ))
    (hr : (n : ℚ) / (10 : ℚ) ^ d = r) : round_ext num d = r := by
  rw [round_ext_of_neg num d h0,
    show ⌈num * (10 : ℚ) ^ d⌉ = n from Int.ceil_eq_iff.mpr ⟨by exact_mod_cast hn, hn'⟩,
    hr]

lemma round_ext_nonneg (num : ℚ) (d : ℤ) (h : 0 ≤ num) : 0 ≤ round_ext num d := by
  rw [round_ext_of_nonneg num d h]
  have hF : (0 : ℚ) < (10 : ℚ) ^ d := factor_pos d
  apply div_nonneg _ hF.le
  have : (0 : ℤ) ≤ ⌊num * (10 : ℚ) ^ d + 1/2⌋ :=
    Int.floor_nonneg.mpr (by positivity)
  exact_mod_cast this

/-- The result of `round_ext num d`, rescaled by `10^d`, is an integer. -/
lemma round_ext_scaled_int (num : ℚ) (d : ℤ) :
    ∃ n : ℤ, round_ext num d * (10 : ℚ) ^ d = (n : ℚ) := by
  have hF : ((10 : ℚ) ^ d) ≠ 0 := (factor_pos d).ne'
  unfold round_ext
  by_cases hc : (1 : ℚ)/2 ≤ num * (10 : ℚ) ^ d - truncQ (num * (10 : ℚ) ^ d)
  · exact ⟨truncQ (num * (10 : ℚ) ^ d) + 1, by rw [if_pos hc, div_mul_cancel₀ _ hF]; push_cast; ring⟩
  · exact ⟨truncQ (num * (10 : ℚ) ^ d), by rw [if_neg hc, div_mul_cancel₀ _ hF]⟩

/-- `round_ext _ 0` returns an integer. -/
lemma round_ext_int (num : ℚ) : ∃ n : ℤ, round_ext num 0 = (n : ℚ) := by
  obtain ⟨n, hn⟩ := round_ext_scaled_int num 0
  exact ⟨n, by rw [← hn, zpow_zero, mul_one]⟩

/-- Half-unit error bound for nonnegative arguments. -/
lemma round_ext_err (num : ℚ) (d : ℤ) (h : 0 ≤ num) :
    |round_ext num d - num| ≤ 1 / (2 * (10 : ℚ) ^ d) := by
  have hF : (0 : ℚ) < (10 : ℚ) ^ d := factor_pos d
  rw [round_ext_of_nonneg num d h]
  have h1 : ((⌊num * (10 : ℚ) ^ d + 1/2⌋ : ℚ)) ≤ num * (10 : ℚ) ^ d + 1/2 :=
    Int.floor_le _
  have h2 : num * (10 : ℚ) ^ d + 1/2 < ⌊num * (10 : ℚ) ^ d + 1/2⌋ + 1 :=
    Int.lt_floor_add_one _
  have hkey : (⌊num * (10 : ℚ) ^ d + 1/2⌋ : ℚ) / (10 : ℚ) ^ d - num
      = ((⌊num * (10 : ℚ) ^ d + 1/2⌋ : ℚ) - num * (10 : ℚ) ^ d) / (10 : ℚ) ^ d := by
    field_simp
    ring
  rw [hkey, abs_div, abs_of_pos hF,
    show (1 : ℚ) / (2 * (10 : ℚ) ^ d) = (1/2) / (10 : ℚ) ^ d by ring,
    div_le_div_iff_of_pos_right hF, abs_le]
  constructor <;> linarith

/-- Decomposition of `round_ext` on a nonnegative argument: the result is
`(⌊num·10^d⌋ + c) / 10^d` with carry `c ∈ {0,1}` determined by whether the
fractional part reaches `1/2`. -/
lemma round_ext_decomp (num : ℚ) (d : ℤ) (h : 0 ≤ num) :
    ∃ c : ℤ, round_ext num d = ((⌊num * (10 : ℚ) ^ d⌋ + c : ℤ) : ℚ) / (10 : ℚ) ^ d ∧
      ((c = 0 ∧ num * (10 : ℚ) ^ d - ⌊num * (10 : ℚ) ^ d⌋ < 1/2) ∨
       (c = 1 ∧ 1/2 ≤ num * (10 : ℚ) ^ d - ⌊num * (10 : ℚ) ^ d⌋)) := by
  have hy : 0 ≤ num * (10 : ℚ) ^ d := mul_nonneg h (factor_pos d).le
  unfold round_ext
  rw [truncQ_of_nonneg hy]
  by_cases hc : (1 : ℚ)/2 ≤ num * (10 : ℚ) ^ d - ⌊num * (10 : ℚ) ^ d⌋
  · refine ⟨1, ?_, Or.inr ⟨rfl, hc⟩⟩
    rw [if_pos hc]
    push_cast
    ring_nf
  · refine ⟨0, ?_, Or.inl ⟨rfl, not_le.mp hc⟩⟩
    rw [if_neg hc]
    push_cast
    ring_nf

/-- Sum of three independently rounded nonnegative summands whose exact sum is
an integer multiple of the unit `10^(-d)`: the total rounding error is at most
one unit. -/
lemma three_round_sum (x y z : ℚ) (d : ℤ) (hx : 0 ≤ x) (hy : 0 ≤ y) (hz : 0 ≤ z)
    (m : ℤ) (hm : (x + y + z) * (10 : ℚ) ^ d = (m : ℚ)) :
    |round_ext x d + round_ext y d + round_ext z d - (x + y + z)|
      ≤ 1 / (10 : ℚ) ^ d := by
  have hF : (0 : ℚ) < (10 : ℚ) ^ d := factor_pos d
  obtain ⟨cx, hxe, hxc⟩ := round_ext_decomp x d hx
  obtain ⟨cy, hye, hyc⟩ := round_ext_decomp y d hy
  obtain ⟨cz, hze, hzc⟩ := round_ext_decomp z d hz
  set ex := ⌊x * (10 : ℚ) ^ d⌋ with hex
  set ey := ⌊y * (10 : ℚ) ^ d⌋ with hey
  set ez := ⌊z * (10 : ℚ) ^ d⌋ with hez
  have hfx0 : (0 : ℚ) ≤ x * (10 : ℚ) ^ d - ex := by
    have := Int.floor_le (x * (10 : ℚ) ^ d); linarith
  have hfx1 : x * (10 : ℚ) ^ d - ex < 1 := by
    have := Int.lt_floor_add_one (x * (10 : ℚ) ^ d); push_cast at this ⊢; linarith
  have hfy0 : (0 : ℚ) ≤ y * (10 : ℚ) ^ d - ey := by
    have := Int.floor_le (y * (10 : ℚ) ^ d); linarith
  have hfy1 : y * (10 : ℚ) ^ d - ey < 1 := by
    have := Int.lt_floor_add_one (y * (10 : ℚ) ^ d); push_cast at this ⊢; linarith
  have hfz0 : (0 : ℚ) ≤ z * (10 : ℚ) ^ d - ez := by
    have := Int.floor_le (z * (10 : ℚ) ^ d); linarith
  have hfz1 : z * (10 : ℚ) ^ d - ez < 1 := by
    have := Int.lt_floor_add_one (z * (10 : ℚ) ^ d); push_cast at this ⊢; linarith
  -- the carries minus the (integer) sum of the fractional parts
  set T : ℤ := cx + cy + cz - (m - (ex + ey + ez)) with hT
  have hTval : (T : ℚ) = ((cx : ℚ) - (x * (10 : ℚ) ^ d - ex)) +
      ((cy : ℚ) - (y * (10 : ℚ) ^ d - ey)) + ((cz : ℚ) - (z * (10 : ℚ) ^ d - ez)) := by
    have : (x + y + z) * (10 : ℚ) ^ d = x * (10 : ℚ) ^ d + y * (10 : ℚ) ^ d +
        z * (10 : ℚ) ^ d := by ring
    rw [this] at hm
    push_cast [hT]
    linarith
  have hcx_up : (cx : ℚ) - (x * (10 : ℚ) ^ d - ex) ≤ 1/2 := by
    rcases hxc with ⟨hc, hf⟩ | ⟨hc, hf⟩ <;> rw [hc] <;> push_cast <;> linarith
  have hcx_lo : -(1/2 : ℚ) < (cx : ℚ) - (x * (10 : ℚ) ^ d - ex) := by
    rcases hxc with ⟨hc, hf⟩ | ⟨hc, hf⟩ <;> rw [hc] <;> push_cast <;> linarith
  have hcy_up : (cy : ℚ) - (y * (10 : ℚ) ^ d - ey) ≤ 1/2 := by
    rcases hyc with ⟨hc, hf⟩ | ⟨hc, hf⟩ <;> rw [hc] <;> push_cast <;> linarith
  have hcy_lo : -(1/2 : ℚ) < (cy : ℚ) - (y * (10 : ℚ) ^ d - ey) := by
    rcases hyc with ⟨hc, hf⟩ | ⟨hc, hf⟩ <;> rw [hc] <;> push_cast <;> linarith
  have hcz_up : (cz : ℚ) - (z * (10 : ℚ) ^ d - ez) ≤ 1/2 := by
    rcases hzc with ⟨hc, hf⟩ | ⟨hc, hf⟩ <;> rw [hc] <;> push_cast <;> linarith
  have hcz_lo : -(1/2 : ℚ) < (cz : ℚ) - (z * (10 : ℚ) ^ d - ez) := by
    rcases hzc with ⟨hc, hf⟩ | ⟨hc, hf⟩ <;> rw [hc] <;> push_cast <;> linarith
  have hT_up : T ≤ 1 := by
    have h2 : (T : ℚ) < 2 := by rw [hTval]; linarith
    have : T < 2 := by exact_mod_cast h2
    omega
  have hT_lo : -1 ≤ T := by
    have h2 : (-2 : ℚ) < (T : ℚ) := by rw [hTval]; linarith
    have : (-2 : ℤ) < T := by exact_mod_cast h2
    omega
  have hsum : round_ext x d + round_ext y d + round_ext z d - (x + y + z)
      = (T : ℚ) / (10 : ℚ) ^ d := by
    rw [hxe, hye, hze]
    have hxyz : x + y + z = (m : ℚ) / (10 : ℚ) ^ d := by
      rw [eq_div_iff hF.ne']; exact hm
    rw [hxyz, div_add_div_same, div_add_div_same, div_sub_div_same]
    congr 1
    push_cast [hT]
    ring
  rw [hsum, abs_div, abs_of_pos hF, div_le_div_iff_of_pos_right hF, abs_le]
  constructor
  · exact_mod_cast hT_lo
  · exact_mod_cast hT_up

/-! ### Projections of `compute_line` -/

lemma cl_cantidad (i : LineItem) : (compute_line i).cantidad = i.cantidad := rfl

lemma cl_tasa_cambio (i : LineItem) : (compute_line i).tasa_cambio = i.tasa_cambio := rfl

lemma cl_tasa_iva (i : LineItem) : (compute_line i).tasa_iva = i.tasa_iva := rfl

lemma cl_proporcion_iva (i : LineItem) : (compute_line i).proporcion_iva = i.proporcion_iva := rfl

lemma cl_moneda_decimal (i : LineItem) : (compute_line i).moneda_decimal = i.moneda_decimal := rfl

lemma cl_monto_bruto (i : LineItem) :
    (compute_line i).monto_bruto =
      if i.precio ≠ 0 then round_ext (i.precio * i.cantidad) i.moneda_decimal else 0 := by
  simp only [compute_line, calcular_valores, LineItem.toDetalle]

lemma cl_monto_neto (i : LineItem) :
    (compute_line i).monto_neto =
      round_ext ((compute_line i).monto_bruto - i.descuento * i.cantidad -
        i.descuento_global * i.cantidad) i.moneda_decimal := by
  simp only [compute_line, calcular_valores, LineItem.toDetalle]

lemma cl_monto_neto_mb (i : LineItem) :
    (compute_line i).monto_neto_mb =
      round_ext ((compute_line i).monto_neto * i.tasa_cambio) 0 := by
  simp only [compute_line, calcular_valores, LineItem.toDetalle]

lemma cl_base_gravada_iva (i : LineItem) :
    (compute_line i).base_gravada_iva =
      if i.tasa_iva ≠ 0 then
        round_ext (cal_base_gravada_iva (compute_line i).monto_neto i.tasa_iva
          i.proporcion_iva i.afectacion_iva) i.moneda_decimal
      else 0 := by
  simp only [compute_line, calcular_valores, LineItem.toDetalle]

lemma cl_base_gravada_iva_mb (i : LineItem) :
    (compute_line i).base_gravada_iva_mb =
      round_ext ((compute_line i).base_gravada_iva * i.tasa_cambio) i.moneda_decimal := by
  simp only [compute_line, calcular_valores, LineItem.toDetalle]

lemma cl_liquidacion_iva (i : LineItem) :
    (compute_line i).liquidacion_iva =
      if i.tasa_iva ≠ 0 then
        round_ext (cal_base_gravada_iva (compute_line i).monto_neto i.tasa_iva
          i.proporcion_iva i.afectacion_iva * ((i.tasa_iva : ℚ) / 100)) i.moneda_decimal
      else 0 := by
  simp only [compute_line, calcular_valores, LineItem.toDetalle]

lemma cl_liquidacion_iva_mb (i : LineItem) :
    (compute_line i).liquidacion_iva_mb =
      round_ext ((compute_line i).liquidacion_iva * i.tasa_cambio) 0 := by
  simp only [compute_line, calcular_valores, LineItem.toDetalle]

lemma cl_base_exenta_iva (i : LineItem) :
    (compute_line i).base_exenta_iva =
      if i.afectacion_iva = some .GRAVADO_PARCIAL ∨ i.afectacion_iva = some .GRAVADO_IVA then
        round_ext ((100 * (compute_line i).monto_neto * (100 - (i.proporcion_iva : ℚ))) /
          (10000 + (i.tasa_iva : ℚ) * (i.proporcion_iva : ℚ))) i.moneda_decimal
      else (compute_line i).monto_neto := by
  simp only [compute_line, calcular_valores, LineItem.toDetalle]

lemma cl_base_exenta_iva_mb (i : LineItem) :
    (compute_line i).base_exenta_iva_mb =
      round_ext ((compute_line i).base_exenta_iva * i.tasa_cambio) 0 := by
  simp only [compute_line, calcular_valores, LineItem.toDetalle]

/-- Step 11 reads the detalle's *input* `liquidacion_iva_imputa`, which for a
freshly built line is the pydantic default `0`. -/
lemma cl_monto_neto_sin_iva (i : LineItem) :
    (compute_line i).monto_neto_sin_iva =
      round_ext ((compute_line i).monto_neto - 0) 0 := by
  simp only [compute_line, calcular_valores, LineItem.toDetalle]

lemma cl_monto_neto_sin_iva_mb (i : LineItem) :
    (compute_line i).monto_neto_sin_iva_mb =
      round_ext ((compute_line i).monto_neto_sin_iva * i.tasa_cambio) 0 := by
  simp only [compute_line, calcular_valores, LineItem.toDetalle]

lemma cl_base_gravada_imputa_iva (i : LineItem) :
    (compute_line i).base_gravada_imputa_iva =
      if i.imputa_iva then
        round_ext (cal_base_gravada_iva (compute_line i).monto_neto i.tasa_iva
          i.proporcion_iva i.afectacion_iva * ((i.proporcion_imputa_iva : ℚ) / 100))
          i.moneda_decimal
      else 0 := by
  simp only [compute_line, calcular_valores, LineItem.toDetalle]

lemma cl_base_gravada_imputa_iva_mb (i : LineItem) :
    (compute_line i).base_gravada_imputa_iva_mb =
      round_ext ((compute_line i).base_gravada_imputa_iva * i.tasa_cambio) 0 := by
  simp only [compute_line, calcular_valores, LineItem.toDetalle]

lemma cl_liquidacion_iva_imputa (i : LineItem) :
    (compute_line i).liquidacion_iva_imputa =
      if i.imputa_iva then
        round_ext ((compute_line i).liquidacion_iva * ((i.proporcion_imputa_iva : ℚ) / 100))
          i.moneda_decimal
      else 0 := by
  simp only [compute_line, calcular_valores, LineItem.toDetalle]

lemma cl_liquidacion_iva_imputa_mb (i : LineItem) :
    (compute_line i).liquidacion_iva_imputa_mb =
      round_ext ((compute_line i).liquidacion_iva_imputa * i.tasa_cambio) 0 := by
  simp only [compute_line, calcular_valores, LineItem.toDetalle]

lemma cl_base_no_imputa_iva (i : LineItem) :
    (compute_line i).base_no_imputa_iva =
      round_ext ((compute_line i).monto_neto - (compute_line i).base_gravada_imputa_iva -
        (compute_line i).liquidacion_iva_imputa) i.moneda_decimal := by
  simp only [compute_line, calcular_valores, LineItem.toDetalle]

lemma cl_base_no_imputa_iva_mb (i : LineItem) :
    (compute_line i).base_no_imputa_iva_mb =
      round_ext ((compute_line i).base_no_imputa_iva * i.tasa_cambio) 0 := by
  simp only [compute_line, calcular_valores, LineItem.toDetalle]

/-! ### Claim C1: exempt and exonerated lines -/

/-- **C1.**  For every line whose affectation is EXENTO or EXONERADO — any tax
rate, any gravada proportion — `compute_line` yields taxable base `0`, VAT
liability `0`, and an exempt base equal to the line's net amount. -/
theorem c1_exempt_exonerado (i : LineItem)
    (h : i.afectacion_iva = some .EXENTO ∨ i.afectacion_iva = some .EXONERADO) :
    (compute_line i).base_gravada_iva = 0 ∧ (compute_line i).liquidacion_iva = 0 ∧
    (compute_line i).base_exenta_iva = (compute_line i).monto_neto := by
  have hne : ¬(i.afectacion_iva = some .GRAVADO_PARCIAL ∨
      i.afectacion_iva = some .GRAVADO_IVA) := by
    rcases h with h | h <;> rw [h] <;> simp
  have hcb : cal_base_gravada_iva (compute_line i).monto_neto i.tasa_iva
      i.proporcion_iva i.afectacion_iva = 0 := by
    unfold cal_base_gravada_iva
    by_cases h0 : i.tasa_iva = 0 ∨ i.proporcion_iva = 0
    · rw [if_pos h0]
    · rw [if_neg h0, if_neg hne]
  refine ⟨?_, ?_, ?_⟩
  · rw [cl_base_gravada_iva]
    split_ifs with ht
    · rw [hcb]; exact round_ext_zero _
    · rfl
  · rw [cl_liquidacion_iva]
    split_ifs with ht
    · rw [hcb, zero_mul]; exact round_ext_zero _
    · rfl
  · rw [cl_base_exenta_iva, if_neg hne]

/-- **C1, witness.**  The exempt line `exC1` (quantity 2, price 50, rate 10):
its net amount is 100 and the theorem's three equations hold there. -/
theorem c1_witness :
    (compute_line exC1).monto_neto = 100 ∧
    ((compute_line exC1).base_gravada_iva = 0 ∧ (compute_line exC1).liquidacion_iva = 0 ∧
      (compute_line exC1).base_exenta_iva = (compute_line exC1).monto_neto) := by
  refine ⟨?_, c1_exempt_exonerado exC1 (Or.inl rfl)⟩
  have hb : (compute_line exC1).monto_bruto = 100 := by
    rw [cl_monto_bruto]
    rw [if_pos (by norm_num [exC1])]
    show round_ext ((50 : ℚ) * 2) 0 = 100
    rw [show (50 : ℚ) * 2 = (100 : ℚ) by norm_num]
    exact round_ext_self 100 0 100 (by push_cast; norm_num)
  rw [cl_monto_neto, hb]
  show round_ext ((100 : ℚ) - 0 * 2 - 0 * 2) 0 = 100
  rw [show (100 : ℚ) - 0 * 2 - 0 * 2 = 100 by norm_num]
  exact round_ext_self 100 0 100 (by push_cast; norm_num)

/-! ### Claim C2: net = base + VAT + exempt up to one unit -/

lemma cal_base_eq (q : ℚ) (t p : ℤ) (a : Option AfectacionIVAEnum)
    (ha : a = some .GRAVADO_PARCIAL ∨ a = some .GRAVADO_IVA) (ht : t ≠ 0) :
    cal_base_gravada_iva q t p a =
      100 * q * (p : ℚ) / (10000 + (t : ℚ) * (p : ℚ)) := by
  unfold cal_base_gravada_iva
  by_cases hp : p = 0
  · rw [if_pos (Or.inr hp), hp]
    push_cast
    rw [mul_zero, zero_div]
  · rw [if_neg (by tauto), if_pos ha]

/-- **C2, counterexample.**  The claim quantifies over *every* line item, but a
fully-taxed line with rate 0 (quantity 1, price 100, GRAVADO, proportion 100,
0 decimals) yields `net = 100` while `base = vat = exempt = 0`: the sum is off
by 100 units, not one. -/
theorem c2_counterexample :
    (compute_line exRate0).monto_neto = 100 ∧
    (compute_line exRate0).base_gravada_iva = 0 ∧
    (compute_line exRate0).liquidacion_iva = 0 ∧
    (compute_line exRate0).base_exenta_iva = 0 ∧
    ¬(|(compute_line exRate0).monto_neto - ((compute_line exRate0).base_gravada_iva +
        (compute_line exRate0).liquidacion_iva + (compute_line exRate0).base_exenta_iva)|
      ≤ 1 / (10 : ℚ) ^ exRate0.moneda_decimal) := by
  have hb : (compute_line exRate0).monto_bruto = 100 := by
    rw [cl_monto_bruto, if_pos (by norm_num [exRate0])]
    show round_ext ((100 : ℚ) * 1) exRate0.moneda_decimal = 100
    rw [show (100 : ℚ) * 1 = (100 : ℚ) by norm_num,
      show exRate0.moneda_decimal = 0 from rfl]
    exact round_ext_self 100 0 100 (by push_cast; norm_num)
  have hn : (compute_line exRate0).monto_neto = 100 := by
    rw [cl_monto_neto, hb]
    show round_ext ((100 : ℚ) - 0 * 1 - 0 * 1) exRate0.moneda_decimal = 100
    rw [show (100 : ℚ) - 0 * 1 - 0 * 1 = (100 : ℚ) by norm_num,
      show exRate0.moneda_decimal = 0 from rfl]
    exact round_ext_self 100 0 100 (by push_cast; norm_num)
  have hbase : (compute_line exRate0).base_gravada_iva = 0 := by
    rw [cl_base_gravada_iva, if_neg (by norm_num [exRate0])]
  have hliq : (compute_line exRate0).liquidacion_iva = 0 := by
    rw [cl_liquidacion_iva, if_neg (by norm_num [exRate0])]
  have hex : (compute_line exRate0).base_exenta_iva = 0 := by
    have hor : exRate0.afectacion_iva = some AfectacionIVAEnum.GRAVADO_PARCIAL ∨
        exRate0.afectacion_iva = some AfectacionIVAEnum.GRAVADO_IVA := Or.inr rfl
    rw [cl_base_exenta_iva, if_pos hor, hn]
    show round_ext ((100 * 100 * (100 - (exRate0.proporcion_iva : ℚ))) /
      (10000 + (exRate0.tasa_iva : ℚ) * (exRate0.proporcion_iva : ℚ)))
      exRate0.moneda_decimal = 0
    rw [show exRate0.proporcion_iva = (100 : ℤ) from rfl,
      show exRate0.tasa_iva = (0 : ℤ) from rfl,
      show exRate0.moneda_decimal = 0 from rfl,
      show (100 * (100 : ℚ) * (100 - ((100 : ℤ) : ℚ))) /
        (10000 + ((0 : ℤ) : ℚ) * ((100 : ℤ) : ℚ)) = 0 by push_cast; norm_num]
    exact round_ext_zero 0
  refine ⟨hn, hbase, hliq, hex, ?_⟩
  rw [hn, hbase, hliq, hex, show exRate0.moneda_decimal = 0 from rfl]
  norm_num

/-- **C2, amended.**  For lines that actually carry VAT — affectation GRAVADO
or GRAVADO_PARCIAL, a nonzero (positive) rate, a gravada proportion in
`[0,100]` and a nonnegative net amount — the net equals taxable base + VAT +
exempt base to within one unit of the configured precision; and Scenario B
(quantity 1, price 200, GRAVADO_PARCIAL, rate 5, proportion 50, 0 decimals)
yields exactly `net = 200`, `base = 98`, `vat = 5`, `exempt = 98`, whose sum
`201` differs from the net by one unit.  (The counterexample shows the bound
fails for rate-0 taxed lines, whose whole net lands in no bucket.) -/
theorem c2_net_decomposition :
    (∀ i : LineItem,
        (i.afectacion_iva = some .GRAVADO_PARCIAL ∨ i.afectacion_iva = some .GRAVADO_IVA) →
        1 ≤ i.tasa_iva → 0 ≤ i.proporcion_iva → i.proporcion_iva ≤ 100 →
        0 ≤ (compute_line i).monto_neto →
        |(compute_line i).monto_neto - ((compute_line i).base_gravada_iva +
          (compute_line i).liquidacion_iva + (compute_line i).base_exenta_iva)|
          ≤ 1 / (10 : ℚ) ^ i.moneda_decimal) ∧
    ((compute_line exB).monto_neto = 200 ∧ (compute_line exB).base_gravada_iva = 98 ∧
      (compute_line exB).liquidacion_iva = 5 ∧ (compute_line exB).base_exenta_iva = 98 ∧
      (98 : ℚ) + 5 + 98 = 201) := by
  constructor
  · intro i ha ht hp0 hp1 hq
    have htne : i.tasa_iva ≠ 0 := by omega
    have htQ : (1 : ℚ) ≤ (i.tasa_iva : ℚ) := by exact_mod_cast ht
    have hpQ0 : (0 : ℚ) ≤ (i.proporcion_iva : ℚ) := by exact_mod_cast hp0
    have hpQ1 : (i.proporcion_iva : ℚ) ≤ 100 := by exact_mod_cast hp1
    have hden : (0 : ℚ) < 10000 + (i.tasa_iva : ℚ) * (i.proporcion_iva : ℚ) := by
      nlinarith
    set q := (compute_line i).monto_neto with hqdef
    set B := 100 * q * (i.proporcion_iva : ℚ) /
      (10000 + (i.tasa_iva : ℚ) * (i.proporcion_iva : ℚ)) with hB
    set V := B * ((i.tasa_iva : ℚ) / 100) with hV
    set E := (100 * q * (100 - (i.proporcion_iva : ℚ))) /
      (10000 + (i.tasa_iva : ℚ) * (i.proporcion_iva : ℚ)) with hE
    have hBnn : 0 ≤ B := by
      rw [hB]
      apply div_nonneg _ hden.le
      nlinarith
    have hVnn : 0 ≤ V := by
      rw [hV]
      apply mul_nonneg hBnn
      positivity
    have hEnn : 0 ≤ E := by
      rw [hE]
      apply div_nonneg _ hden.le
      nlinarith
    have hdne : 10000 + (i.tasa_iva : ℚ) * (i.proporcion_iva : ℚ) ≠ 0 := hden.ne'
    have hdne2 : 10000 + (i.proporcion_iva : ℚ) * (i.tasa_iva : ℚ) ≠ 0 := by
      rw [mul_comm]; exact hden.ne'
    have hsum : B + V + E = q := by
      have h1 : B + V + E = (10000 * q + q * (i.proporcion_iva : ℚ) * (i.tasa_iva : ℚ)) /
          (10000 + (i.tasa_iva : ℚ) * (i.proporcion_iva : ℚ)) := by
        rw [hB, hV, hE]
        ring
      rw [h1, div_eq_iff hdne]
      ring
    have hbase : (compute_line i).base_gravada_iva = round_ext B i.moneda_decimal := by
      rw [cl_base_gravada_iva, if_pos htne, cal_base_eq _ _ _ _ ha htne]
    have hliq : (compute_line i).liquidacion_iva = round_ext V i.moneda_decimal := by
      rw [cl_liquidacion_iva, if_pos htne, cal_base_eq _ _ _ _ ha htne]
    have hexe : (compute_line i).base_exenta_iva = round_ext E i.moneda_decimal := by
      rw [cl_base_exenta_iva, if_pos ha]
    obtain ⟨m, hm⟩ := round_ext_scaled_int ((compute_line i).monto_bruto -
      i.descuento * i.cantidad - i.descuento_global * i.cantidad) i.moneda_decimal
    have hqm : q * (10 : ℚ) ^ i.moneda_decimal = (m : ℚ) := by
      rw [hqdef, cl_monto_neto]
      exact hm
    have key := three_round_sum B V E i.moneda_decimal hBnn hVnn hEnn m
      (by rw [hsum]; exact hqm)
    rw [hsum] at key
    rw [hbase, hliq, hexe, abs_sub_comm]
    exact key
  · have hb : (compute_line exB).monto_bruto = 200 := by
      rw [cl_monto_bruto, if_pos (by norm_num [exB])]
      show round_ext ((200 : ℚ) * 1) exB.moneda_decimal = 200
      rw [show (200 : ℚ) * 1 = (200 : ℚ) by norm_num,
        show exB.moneda_decimal = 0 from rfl]
      exact round_ext_self 200 0 200 (by push_cast; norm_num)
    have hn : (compute_line exB).monto_neto = 200 := by
      rw [cl_monto_neto, hb]
      show round_ext ((200 : ℚ) - 0 * 1 - 0 * 1) exB.moneda_decimal = 200
      rw [show (200 : ℚ) - 0 * 1 - 0 * 1 = (200 : ℚ) by norm_num,
        show exB.moneda_decimal = 0 from rfl]
      exact round_ext_self 200 0 200 (by push_cast; norm_num)
    have hcb : cal_base_gravada_iva (compute_line exB).monto_neto exB.tasa_iva
        exB.proporcion_iva exB.afectacion_iva = 4000/41 := by
      rw [hn, show exB.tasa_iva = (5 : ℤ) from rfl,
        show exB.proporcion_iva = (50 : ℤ) from rfl,
        show exB.afectacion_iva = some AfectacionIVAEnum.GRAVADO_PARCIAL from rfl,
        cal_base_eq 200 5 50 _ (Or.inl rfl) (by norm_num)]
      push_cast
      norm_num
    have hbase : (compute_line exB).base_gravada_iva = 98 := by
      rw [cl_base_gravada_iva, if_pos (by norm_num [exB]), hcb,
        show exB.moneda_decimal = 0 from rfl]
      apply round_ext_eval 98 (by norm_num) (by push_cast; norm_num)
        (by push_cast; norm_num)
      norm_num
    have hliq : (compute_line exB).liquidacion_iva = 5 := by
      rw [cl_liquidacion_iva, if_pos (by norm_num [exB]), hcb,
        show exB.tasa_iva = (5 : ℤ) from rfl,
        show exB.moneda_decimal = 0 from rfl,
        show (4000/41 : ℚ) * (((5 : ℤ) : ℚ) / 100) = 200/41 by push_cast; norm_num]
      apply round_ext_eval 5 (by norm_num) (by push_cast; norm_num)
        (by push_cast; norm_num)
      norm_num
    have hexe : (compute_line exB).base_exenta_iva = 98 := by
      have hor : exB.afectacion_iva = some AfectacionIVAEnum.GRAVADO_PARCIAL ∨
          exB.afectacion_iva = some AfectacionIVAEnum.GRAVADO_IVA := Or.inl rfl
      rw [cl_base_exenta_iva, if_pos hor, hn,
        show exB.proporcion_iva = (50 : ℤ) from rfl,
        show exB.tasa_iva = (5 : ℤ) from rfl,
        show exB.moneda_decimal = 0 from rfl,
        show (100 * (200 : ℚ) * (100 - ((50 : ℤ) : ℚ))) /
          (10000 + ((5 : ℤ) : ℚ) * ((50 : ℤ) : ℚ)) = 4000/41 by push_cast; norm_num]
      apply round_ext_eval 98 (by norm_num) (by push_cast; norm_num)
        (by push_cast; norm_num)
      norm_num
    exact ⟨hn, hbase, hliq, hexe, by norm_num⟩

/-- **C2, witness.**  The amended bound instantiated at Scenario B: the sum
`98 + 5 + 98 = 201` differs from the net `200` by exactly one unit. -/
theorem c2_witness :
    |(compute_line exB).monto_neto - ((compute_line exB).base_gravada_iva +
      (compute_line exB).liquidacion_iva + (compute_line exB).base_exenta_iva)|
      ≤ 1 / (10 : ℚ) ^ exB.moneda_decimal :=
  c2_net_decomposition.1 exB (Or.inl rfl) (by norm_num [exB]) (by norm_num [exB])
    (by norm_num [exB]) (by rw [c2_net_decomposition.2.1]; norm_num)

/-! ### Claim C3: input validation -/

/-- Evaluation of the net amount on the invalid input `exInvalid`. -/
lemma exInvalid_net : (compute_line exInvalid).monto_neto = -100 := by
  have hb : (compute_line exInvalid).monto_bruto = -100 := by
    rw [cl_monto_bruto, if_pos (by norm_num [exInvalid])]
    show round_ext ((100 : ℚ) * (-1)) (9 : ℤ) = -100
    rw [show (100 : ℚ) * (-1) = (-100 : ℚ) by norm_num]
    exact round_ext_self (-100) 9 (-100000000000) (by push_cast; norm_num)
  rw [cl_monto_neto, hb]
  show round_ext ((-100 : ℚ) - 0 * (-1) - 0 * (-1)) (9 : ℤ) = -100
  rw [show (-100 : ℚ) - 0 * (-1) - 0 * (-1) = (-100 : ℚ) by norm_num]
  exact round_ext_self (-100) 9 (-100000000000) (by push_cast; norm_num)

/-- **C3, counterexample.**  `exInvalid` violates every rule of the claim
(quantity `-1`, rate `7`, proportion `150`, exchange rate `-2`, `9` decimal
places), yet the computation runs to completion and produces derived fields —
no error is raised. -/
theorem c3_counterexample :
    (compute_line exInvalid).cantidad = -1 ∧ (compute_line exInvalid).monto_neto = -100 :=
  ⟨rfl, exInvalid_net⟩

/-- **C3, amended.**  The model performs no validation: every input field —
including a negative quantity, a rate outside the allowed set, proportions
outside `[0,100]`, a non-positive exchange rate and decimal places outside
`[0,8]` — passes through unchanged (never clamped or defaulted), and the
derived fields are computed from the invalid values; on `exInvalid` the net is
`-100` and the base-currency net `round_ext ((-100)·(-2)) 0 = 200`. -/
theorem c3_no_validation :
    (∀ i : LineItem,
        (compute_line i).cantidad = i.cantidad ∧
        (compute_line i).precio = i.precio ∧
        (compute_line i).tasa_iva = i.tasa_iva ∧
        (compute_line i).proporcion_iva = i.proporcion_iva ∧
        (compute_line i).proporcion_imputa_iva = i.proporcion_imputa_iva ∧
        (compute_line i).tasa_cambio = i.tasa_cambio ∧
        (compute_line i).moneda_decimal = i.moneda_decimal) ∧
    ((compute_line exInvalid).monto_neto = -100 ∧
      (compute_line exInvalid).monto_neto_mb = 200) := by
  refine ⟨fun i => ⟨rfl, rfl, rfl, rfl, rfl, rfl, rfl⟩, ?_, ?_⟩
  · exact exInvalid_net
  · rw [cl_monto_neto_mb, exInvalid_net]
    show round_ext ((-100 : ℚ) * (-2)) 0 = 200
    rw [show (-100 : ℚ) * (-2) = (200 : ℚ) by norm_num]
    exact round_ext_self 200 0 200 (by push_cast; norm_num)

/-! ### Claim C8: base-currency mirrors -/

/-- **C8, counterexample.**  On a taxed line with 2 decimal places (price
110.11, rate 10, exchange rate 1) the taxable-base mirror is
`base_gravada_iva_mb = 100.1`: it is rounded to `moneda_decimal` places, not
to 0, and differs from its 0-place rounding. -/
theorem c8_counterexample :
    (compute_line exDec2).base_gravada_iva_mb = 1001/10 ∧
    (compute_line exDec2).base_gravada_iva_mb ≠
      round_ext ((compute_line exDec2).base_gravada_iva * exDec2.tasa_cambio) 0 := by
  have hb : (compute_line exDec2).monto_bruto = 11011/100 := by
    rw [cl_monto_bruto, if_pos (by norm_num [exDec2])]
    show round_ext ((11011/100 : ℚ) * 1) (2 : ℤ) = 11011/100
    rw [show (11011/100 : ℚ) * 1 = (11011/100 : ℚ) by norm_num]
    exact round_ext_self (11011/100) 2 11011 (by push_cast; norm_num)
  have hn : (compute_line exDec2).monto_neto = 11011/100 := by
    rw [cl_monto_neto, hb]
    show round_ext ((11011/100 : ℚ) - 0 * 1 - 0 * 1) (2 : ℤ) = 11011/100
    rw [show (11011/100 : ℚ) - 0 * 1 - 0 * 1 = (11011/100 : ℚ) by norm_num]
    exact round_ext_self (11011/100) 2 11011 (by push_cast; norm_num)
  have hbase : (compute_line exDec2).base_gravada_iva = 1001/10 := by
    rw [cl_base_gravada_iva, if_pos (by norm_num [exDec2]), hn,
      show exDec2.tasa_iva = (10 : ℤ) from rfl,
      show exDec2.proporcion_iva = (100 : ℤ) from rfl,
      show exDec2.afectacion_iva = some AfectacionIVAEnum.GRAVADO_IVA from rfl,
      cal_base_eq (11011/100) 10 100 _ (Or.inr rfl) (by norm_num),
      show (100 * (11011/100 : ℚ) * ((100 : ℤ) : ℚ)) /
        (10000 + ((10 : ℤ) : ℚ) * ((100 : ℤ) : ℚ)) = 1001/10 by push_cast; norm_num,
      show exDec2.moneda_decimal = (2 : ℤ) from rfl]
    exact round_ext_self (1001/10) 2 10010 (by push_cast; norm_num)
  have hmb : (compute_line exDec2).base_gravada_iva_mb = 1001/10 := by
    rw [cl_base_gravada_iva_mb, hbase,
      show exDec2.tasa_cambio = (1 : ℚ) from rfl,
      show (1001/10 : ℚ) * 1 = (1001/10 : ℚ) by norm_num,
      show exDec2.moneda_decimal = (2 : ℤ) from rfl]
    exact round_ext_self (1001/10) 2 10010 (by push_cast; norm_num)
  refine ⟨hmb, ?_⟩
  rw [hmb, hbase, show exDec2.tasa_cambio = (1 : ℚ) from rfl,
    show (1001/10 : ℚ) * 1 = (1001/10 : ℚ) by norm_num]
  have h0 : round_ext ((1001 : ℚ)/10) 0 = 100 :=
    round_ext_eval 100 (by norm_num) (by push_cast; norm_num)
      (by push_cast; norm_num) (by norm_num)
  rw [h0]
  norm_num

/-- **C8, amended.**  Every base-currency mirror of a computed line is rounded
to 0 decimal places — hence a whole number — *except* `base_gravada_iva_mb`,
which the code rounds to the line's `moneda_decimal` places. -/
theorem c8_mb_fields (i : LineItem) :
    (∃ n : ℤ, (compute_line i).monto_neto_mb = (n : ℚ)) ∧
    (∃ n : ℤ, (compute_line i).liquidacion_iva_mb = (n : ℚ)) ∧
    (∃ n : ℤ, (compute_line i).base_exenta_iva_mb = (n : ℚ)) ∧
    (∃ n : ℤ, (compute_line i).monto_neto_sin_iva_mb = (n : ℚ)) ∧
    (∃ n : ℤ, (compute_line i).base_gravada_imputa_iva_mb = (n : ℚ)) ∧
    (∃ n : ℤ, (compute_line i).liquidacion_iva_imputa_mb = (n : ℚ)) ∧
    (∃ n : ℤ, (compute_line i).base_no_imputa_iva_mb = (n : ℚ)) ∧
    (compute_line i).base_gravada_iva_mb =
      round_ext ((compute_line i).base_gravada_iva * i.tasa_cambio) i.moneda_decimal := by
  refine ⟨?_, ?_, ?_, ?_, ?_, ?_, ?_, cl_base_gravada_iva_mb i⟩
  · rw [cl_monto_neto_mb]; exact round_ext_int _
  · rw [cl_liquidacion_iva_mb]; exact round_ext_int _
  · rw [cl_base_exenta_iva_mb]; exact round_ext_int _
  · rw [cl_monto_neto_sin_iva_mb]; exact round_ext_int _
  · rw [cl_base_gravada_imputa_iva_mb]; exact round_ext_int _
  · rw [cl_liquidacion_iva_imputa_mb]; exact round_ext_int _
  · rw [cl_base_no_imputa_iva_mb]; exact round_ext_int _

/-! ### Claim C9: VAT-excluded net amount -/

/-- **C9 (code bug).**  Step 11 of `calcular_valores` computes
`monto_neto_sin_iva = round_ext(monto_neto - liquidacion_iva_imputa)` *before*
step 15 recomputes `liquidacion_iva_imputa`, so it subtracts the stale input
value `0`.  On a fully-taxed creditable line (price 110, rate 10, credit
proportion 100) the credited VAT is `10`, so the claim expects `100`, but the
code produces `110`. -/
theorem c9_stale_credit_vat :
    (compute_line exCredito).monto_neto = 110 ∧
    (compute_line exCredito).liquidacion_iva_imputa = 10 ∧
    (compute_line exCredito).monto_neto_sin_iva = 110 ∧
    (compute_line exCredito).monto_neto - (compute_line exCredito).liquidacion_iva_imputa
      = 100 := by
  have hb : (compute_line exCredito).monto_bruto = 110 := by
    rw [cl_monto_bruto, if_pos (by norm_num [exCredito])]
    show round_ext ((110 : ℚ) * 1) (0 : ℤ) = 110
    rw [show (110 : ℚ) * 1 = (110 : ℚ) by norm_num]
    exact round_ext_self 110 0 110 (by push_cast; norm_num)
  have hn : (compute_line exCredito).monto_neto = 110 := by
    rw [cl_monto_neto, hb]
    show round_ext ((110 : ℚ) - 0 * 1 - 0 * 1) (0 : ℤ) = 110
    rw [show (110 : ℚ) - 0 * 1 - 0 * 1 = (110 : ℚ) by norm_num]
    exact round_ext_self 110 0 110 (by push_cast; norm_num)
  have hliq : (compute_line exCredito).liquidacion_iva = 10 := by
    rw [cl_liquidacion_iva, if_pos (by norm_num [exCredito]), hn,
      show exCredito.tasa_iva = (10 : ℤ) from rfl,
      show exCredito.proporcion_iva = (100 : ℤ) from rfl,
      show exCredito.afectacion_iva = some AfectacionIVAEnum.GRAVADO_IVA from rfl,
      cal_base_eq 110 10 100 _ (Or.inr rfl) (by norm_num),
      show (100 * (110 : ℚ) * ((100 : ℤ) : ℚ)) / (10000 + ((10 : ℤ) : ℚ) * ((100 : ℤ) : ℚ))
          * (((10 : ℤ) : ℚ) / 100) = 10 by push_cast; norm_num,
      show exCredito.moneda_decimal = (0 : ℤ) from rfl]
    exact round_ext_self 10 0 10 (by push_cast; norm_num)
  have hli : (compute_line exCredito).liquidacion_iva_imputa = 10 := by
    rw [cl_liquidacion_iva_imputa, if_pos (by norm_num [exCredito]), hliq,
      show exCredito.proporcion_imputa_iva = (100 : ℤ) from rfl,
      show (10 : ℚ) * (((100 : ℤ) : ℚ) / 100) = 10 by push_cast; norm_num,
      show exCredito.moneda_decimal = (0 : ℤ) from rfl]
    exact round_ext_self 10 0 10 (by push_cast; norm_num)
  have hsin : (compute_line exCredito).monto_neto_sin_iva = 110 := by
    rw [cl_monto_neto_sin_iva, hn,
      show (110 : ℚ) - 0 = (110 : ℚ) by norm_num]
    exact round_ext_self 110 0 110 (by push_cast; norm_num)
  exact ⟨hn, hli, hsin, by rw [hn, hli]; norm_num⟩

/-! ### Claim C6: behaviour of `round(value, places)` -/

/-- **C6, counterexample.**  The claim states that `round_ext` increments away
from zero whenever the discarded fractional remainder is at least one half,
and in particular that `round(-0.125, 2) = -0.13`.  In the code the remainder
of a negative value is nonpositive, so the test `decimal >= 0.5` never fires:
`round_ext (-0.125) 2 = -0.12 ≠ -0.13`. -/
theorem c6_counterexample :
    round_ext (-(1/8) : ℚ) 2 = -(12/100) ∧ round_ext (-(1/8) : ℚ) 2 ≠ -(13/100) := by
  have h : round_ext (-(1/8) : ℚ) 2 = -(12/100) := by
    apply round_ext_eval_neg (-12) (by norm_num) (by push_cast; norm_num)
      (by push_cast; norm_num)
    norm_num
  exact ⟨h, by rw [h]; norm_num⟩

/-- **C6, amended.**  `round_ext value places` scales by `10^places`, takes
the integer part and divides back; for a nonnegative value it increments when
the fractional remainder is at least one half (round-half-up, equivalently
`⌊value·10^places + 1/2⌋`), but for a negative value the remainder computed by
the code is nonpositive, so the value is always truncated toward zero.  In
particular `round(0.125, 2) = 0.13` while `round(-0.125, 2) = -0.12`. -/
theorem c6_round_half_up :
    (∀ (x : ℚ) (d : ℤ), 0 ≤ x →
        round_ext x d = (⌊x * (10 : ℚ) ^ d + 1/2⌋ : ℚ) / (10 : ℚ) ^ d) ∧
    (∀ (x : ℚ) (d : ℤ), x < 0 →
        round_ext x d = (⌈x * (10 : ℚ) ^ d⌉ : ℚ) / (10 : ℚ) ^ d) ∧
    round_ext (1/8 : ℚ) 2 = 13/100 ∧ round_ext (-(1/8) : ℚ) 2 = -(12/100) := by
  refine ⟨round_ext_of_nonneg, round_ext_of_neg, ?_, ?_⟩
  · apply round_ext_eval 13 (by norm_num) (by push_cast; norm_num)
      (by push_cast; norm_num)
    norm_num
  · apply round_ext_eval_neg (-12) (by norm_num) (by push_cast; norm_num)
      (by push_cast; norm_num)
    norm_num

/-- **C6, witness.**  The amended theorem instantiated at `0.125`, `2`. -/
theorem c6_witness :
    round_ext (1/8 : ℚ) 2 = (⌊(1/8 : ℚ) * (10 : ℚ) ^ (2 : ℤ) + 1/2⌋ : ℚ) / (10 : ℚ) ^ (2 : ℤ) :=
  c6_round_half_up.1 (1/8) 2 (by norm_num)

/-! ### Claim C7: currency-mirror round trip -/

/-- **C7, counterexample.**  With rate `1/100` and precision `0`, mirroring
`123` into the base currency and back at the reciprocal rate returns `100`,
which is off by `23` units: the round trip is *not* within one unit for every
positive rate. -/
theorem c7_counterexample :
    ¬ (|mirror (mirror (123 : ℚ) (1/100) 0) (1/(1/100)) 0 - 123| ≤ 1 / (10 : ℚ) ^ (0 : ℤ)) := by
  have h1 : mirror (123 : ℚ) (1/100) 0 = 1 := by
    unfold mirror
    apply round_ext_eval 1 (by norm_num) (by push_cast; norm_num) (by push_cast; norm_num)
    norm_num
  have h2 : mirror (1 : ℚ) (1/(1/100)) 0 = 100 := by
    unfold mirror
    rw [round_ext_self ((1 : ℚ) * (1/(1/100))) 0 100 (by norm_num)]
    norm_num
  rw [h1, h2]
  norm_num

/-- **C7, amended.**  For a nonnegative amount and a rate at least `1`, the
round trip `mirror (mirror a r p) (1/r) p` returns the amount to within one
unit at precision `p`.  (The counterexample shows rates below `1` break the
bound; truncation toward zero likewise breaks it for negative amounts.) -/
theorem c7_mirror_roundtrip (a r : ℚ) (p : ℤ) (ha : 0 ≤ a) (hr : 1 ≤ r) :
    |mirror (mirror a r p) (1/r) p - a| ≤ 1 / (10 : ℚ) ^ p := by
  have hF : (0 : ℚ) < (10 : ℚ) ^ p := factor_pos p
  have hr0 : (0 : ℚ) < r := lt_of_lt_of_le one_pos hr
  have har : 0 ≤ a * r := mul_nonneg ha hr0.le
  set y := round_ext (a * r) p with hy
  have hy0 : 0 ≤ y := round_ext_nonneg _ _ har
  have e1 : |y - a * r| ≤ 1 / (2 * (10 : ℚ) ^ p) := round_ext_err _ _ har
  have hyr : 0 ≤ y * (1/r) := mul_nonneg hy0 (by positivity)
  have e2 : |round_ext (y * (1/r)) p - y * (1/r)| ≤ 1 / (2 * (10 : ℚ) ^ p) :=
    round_ext_err _ _ hyr
  have hmid : |y * (1/r) - a| ≤ 1 / (2 * (10 : ℚ) ^ p) := by
    have hrw : y * (1/r) - a = (y - a * r) / r := by
      field_simp
      ring
    rw [hrw, abs_div, abs_of_pos hr0]
    calc |y - a * r| / r ≤ (1 / (2 * (10 : ℚ) ^ p)) / r :=
          (div_le_div_iff_of_pos_right hr0).mpr e1
      _ ≤ 1 / (2 * (10 : ℚ) ^ p) := div_le_self (by positivity) hr
  have tri : |mirror (mirror a r p) (1/r) p - a|
      ≤ |round_ext (y * (1/r)) p - y * (1/r)| + |y * (1/r) - a| := by
    have : mirror (mirror a r p) (1/r) p = round_ext (y * (1/r)) p := rfl
    rw [this]
    exact abs_sub_le _ (y * (1/r)) _
  have hfin : 1 / (2 * (10 : ℚ) ^ p) + 1 / (2 * (10 : ℚ) ^ p) = 1 / (10 : ℚ) ^ p := by
    ring
  linarith [tri, e2, hmid]

/-- **C7, witness.**  The amended round-trip bound at amount `123`, rate `100`,
precision `0`. -/
theorem c7_witness :
    |mirror (mirror (123 : ℚ) 100 0) (1/(100 : ℚ)) 0 - 123| ≤ 1 / (10 : ℚ) ^ (0 : ℤ) :=
  c7_mirror_roundtrip 123 100 0 (by norm_num) (by norm_num)

/-! ### The aggregation fold -/

lemma upd_det_monto_neto (g : Bool) (tc : ℚ) (det : DocumentoDetalle) :
    (upd_det g tc det).monto_neto = det.monto_neto := by cases g <;> rfl

lemma upd_det_monto_neto_mb (g : Bool) (tc : ℚ) (det : DocumentoDetalle) :
    (upd_det g tc det).monto_neto_mb = det.monto_neto_mb := by cases g <;> rfl

lemma apExenta_upd (g : Bool) (tc : ℚ) (det : DocumentoDetalle) :
    apExenta g (upd_det g tc det) = apExenta g det := by cases g <;> rfl

lemma apExonerado_upd (g : Bool) (tc : ℚ) (det : DocumentoDetalle) :
    apExonerado g (upd_det g tc det) = apExonerado g det := by cases g <;> rfl

lemma apSub5_upd (g : Bool) (tc : ℚ) (det : DocumentoDetalle) :
    apSub5 g (upd_det g tc det) = apSub5 g det := by cases g <;> rfl

lemma apSub10_upd (g : Bool) (tc : ℚ) (det : DocumentoDetalle) :
    apSub10 g (upd_det g tc det) = apSub10 g det := by cases g <;> rfl

lemma apIva5_upd (g : Bool) (tc : ℚ) (det : DocumentoDetalle) :
    apIva5 g (upd_det g tc det) = apIva5 g det := by cases g <;> rfl

lemma apIva10_upd (g : Bool) (tc : ℚ) (det : DocumentoDetalle) :
    apIva10 g (upd_det g tc det) = apIva10 g det := by cases g <;> rfl

lemma apBase5_upd (g : Bool) (tc : ℚ) (det : DocumentoDetalle) :
    apBase5 g (upd_det g tc det) = apBase5 g det := by cases g <;> rfl

lemma apBase10_upd (g : Bool) (tc : ℚ) (det : DocumentoDetalle) :
    apBase10 g (upd_det g tc det) = apBase10 g det := by cases g <;> rfl

lemma apSubImputa_upd (g : Bool) (tc : ℚ) (det : DocumentoDetalle) :
    apSubImputa g (upd_det g tc det) = apSubImputa g det := by cases g <;> rfl

lemma apStBaseImputa_upd (g : Bool) (tc : ℚ) (det : DocumentoDetalle) :
    apStBaseImputa g (upd_det g tc det) = apStBaseImputa g det := by cases g <;> rfl

lemma apStLiqImputa_upd (g : Bool) (tc : ℚ) (det : DocumentoDetalle) :
    apStLiqImputa g (upd_det g tc det) = apStLiqImputa g det := by cases g <;> rfl

lemma apStNoImputa_upd (g : Bool) (tc : ℚ) (det : DocumentoDetalle) :
    apStNoImputa g (upd_det g tc det) = apStNoImputa g det := by cases g <;> rfl

lemma apDescItem_upd (g : Bool) (tc : ℚ) (det : DocumentoDetalle) :
    apDescItem (upd_det g tc det) = apDescItem det := by cases g <;> rfl

lemma apDescGlobal_upd (g : Bool) (tc : ℚ) (det : DocumentoDetalle) :
    apDescGlobal (upd_det g tc det) = apDescGlobal det := by cases g <;> rfl

lemma upd_det_idem (g : Bool) (tc : ℚ) (det : DocumentoDetalle) :
    upd_det g tc (upd_det g tc det) = upd_det g tc det := by cases g <;> rfl

/-- Closed form of the aggregation loop: each accumulator advances by the sum
of its per-line contributions. -/
lemma foldl_agg (g : Bool) (tc : ℚ) (l : List DocumentoDetalle) (d : Documento) :
    l.foldl (agg_body g tc) d = { d with
      monto_exenta := d.monto_exenta + (l.map (apExenta g)).sum
      monto_exonerado := d.monto_exonerado + (l.map (apExonerado g)).sum
      subtotal_iva_5 := d.subtotal_iva_5 + (l.map (apSub5 g)).sum
      subtotal_iva_10 := d.subtotal_iva_10 + (l.map (apSub10 g)).sum
      iva_5 := d.iva_5 + (l.map (apIva5 g)).sum
      iva_10 := d.iva_10 + (l.map (apIva10 g)).sum
      base_gravada_5 := d.base_gravada_5 + (l.map (apBase5 g)).sum
      base_gravada_10 := d.base_gravada_10 + (l.map (apBase10 g)).sum
      subtotal_imputa_iva := d.subtotal_imputa_iva + (l.map (apSubImputa g)).sum
      st_base_gravada_imputa_iva :=
        d.st_base_gravada_imputa_iva + (l.map (apStBaseImputa g)).sum
      st_liquidacion_iva_imputa :=
        d.st_liquidacion_iva_imputa + (l.map (apStLiqImputa g)).sum
      st_base_no_imputa_iva := d.st_base_no_imputa_iva + (l.map (apStNoImputa g)).sum
      descuento_item := d.descuento_item + (l.map apDescItem).sum
      descuento_global := d.descuento_global + (l.map apDescGlobal).sum
      monto_total := d.monto_total + (l.map (fun det => det.monto_neto)).sum
      monto_total_mb := d.monto_total_mb + (l.map (fun det => det.monto_neto_mb)).sum } := by
  induction l generalizing d with
  | nil => simp
  | cons a t ih =>
    rw [List.foldl_cons, ih]
    simp only [agg_body, List.map_cons, List.sum_cons, apExenta_upd, apExonerado_upd,
      apSub5_upd, apSub10_upd, apIva5_upd, apIva10_upd, apBase5_upd, apBase10_upd,
      apSubImputa_upd, apStBaseImputa_upd, apStLiqImputa_upd, apStNoImputa_upd,
      apDescItem_upd, apDescGlobal_upd, upd_det_monto_neto, upd_det_monto_neto_mb]
    congr 1 <;> ring

/-! ### Closed forms for the fields of `set_calcular_totales` -/

lemma calc_tipo (doc : Documento) :
    (set_calcular_totales doc).tipo_impuesto_afectado = doc.tipo_impuesto_afectado := by
  simp only [set_calcular_totales, foldl_agg]

lemma calc_tasa_cambio (doc : Documento) :
    (set_calcular_totales doc).tasa_cambio = doc.tasa_cambio := by
  simp only [set_calcular_totales, foldl_agg]

lemma calc_moneda_decimal (doc : Documento) :
    (set_calcular_totales doc).moneda_decimal = doc.moneda_decimal := by
  simp only [set_calcular_totales, foldl_agg]

lemma calc_detalles (doc : Documento) :
    (set_calcular_totales doc).detalles =
      doc.detalles.map (upd_det (aplicaIVA doc.tipo_impuesto_afectado) doc.tasa_cambio) := by
  simp only [set_calcular_totales, foldl_agg]

lemma calc_monto_exenta (doc : Documento) :
    (set_calcular_totales doc).monto_exenta =
      (doc.detalles.map (apExenta (aplicaIVA doc.tipo_impuesto_afectado))).sum := by
  simp only [set_calcular_totales, foldl_agg, zero_add]

lemma calc_monto_exonerado (doc : Documento) :
    (set_calcular_totales doc).monto_exonerado =
      (doc.detalles.map (apExonerado (aplicaIVA doc.tipo_impuesto_afectado))).sum := by
  simp only [set_calcular_totales, foldl_agg, zero_add]

lemma calc_subtotal_iva_5 (doc : Documento) :
    (set_calcular_totales doc).subtotal_iva_5 =
      (doc.detalles.map (apSub5 (aplicaIVA doc.tipo_impuesto_afectado))).sum := by
  simp only [set_calcular_totales, foldl_agg, zero_add]

lemma calc_subtotal_iva_10 (doc : Documento) :
    (set_calcular_totales doc).subtotal_iva_10 =
      (doc.detalles.map (apSub10 (aplicaIVA doc.tipo_impuesto_afectado))).sum := by
  simp only [set_calcular_totales, foldl_agg, zero_add]

lemma calc_subtotal_imputa_iva (doc : Documento) :
    (set_calcular_totales doc).subtotal_imputa_iva =
      (doc.detalles.map (apSubImputa (aplicaIVA doc.tipo_impuesto_afectado))).sum := by
  simp only [set_calcular_totales, foldl_agg, zero_add]

lemma calc_st_base_gravada_imputa_iva (doc : Documento) :
    (set_calcular_totales doc).st_base_gravada_imputa_iva =
      (doc.detalles.map (apStBaseImputa (aplicaIVA doc.tipo_impuesto_afectado))).sum := by
  simp only [set_calcular_totales, foldl_agg, zero_add]

lemma calc_st_liquidacion_iva_imputa (doc : Documento) :
    (set_calcular_totales doc).st_liquidacion_iva_imputa =
      (doc.detalles.map (apStLiqImputa (aplicaIVA doc.tipo_impuesto_afectado))).sum := by
  simp only [set_calcular_totales, foldl_agg, zero_add]

lemma calc_st_base_no_imputa_iva (doc : Documento) :
    (set_calcular_totales doc).st_base_no_imputa_iva =
      (doc.detalles.map (apStNoImputa (aplicaIVA doc.tipo_impuesto_afectado))).sum := by
  simp only [set_calcular_totales, foldl_agg, zero_add]

lemma calc_base_gravada_5 (doc : Documento) :
    (set_calcular_totales doc).base_gravada_5 =
      round_ext ((doc.detalles.map (apBase5 (aplicaIVA doc.tipo_impuesto_afectado))).sum)
        doc.moneda_decimal := by
  simp only [set_calcular_totales, foldl_agg, zero_add]

lemma calc_base_gravada_10 (doc : Documento) :
    (set_calcular_totales doc).base_gravada_10 =
      round_ext ((doc.detalles.map (apBase10 (aplicaIVA doc.tipo_impuesto_afectado))).sum)
        doc.moneda_decimal := by
  simp only [set_calcular_totales, foldl_agg, zero_add]

lemma calc_iva_5 (doc : Documento) :
    (set_calcular_totales doc).iva_5 =
      round_ext ((doc.detalles.map (apIva5 (aplicaIVA doc.tipo_impuesto_afectado))).sum)
        doc.moneda_decimal := by
  simp only [set_calcular_totales, foldl_agg, zero_add]

lemma calc_iva_10 (doc : Documento) :
    (set_calcular_totales doc).iva_10 =
      round_ext ((doc.detalles.map (apIva10 (aplicaIVA doc.tipo_impuesto_afectado))).sum)
        doc.moneda_decimal := by
  simp only [set_calcular_totales, foldl_agg, zero_add]

lemma calc_monto_total (doc : Documento) :
    (set_calcular_totales doc).monto_total =
      round_ext ((doc.detalles.map (fun det => det.monto_neto)).sum) doc.moneda_decimal := by
  simp only [set_calcular_totales, foldl_agg, zero_add]

lemma calc_monto_total_mb (doc : Documento) :
    (set_calcular_totales doc).monto_total_mb =
      (doc.detalles.map (fun det => det.monto_neto_mb)).sum := by
  simp only [set_calcular_totales, foldl_agg, zero_add]

lemma calc_subtotal_exo_exe (doc : Documento) :
    (set_calcular_totales doc).subtotal_exo_exe =
      round_ext ((doc.detalles.map (apExonerado (aplicaIVA doc.tipo_impuesto_afectado))).sum +
        (doc.detalles.map (apExenta (aplicaIVA doc.tipo_impuesto_afectado))).sum)
        doc.moneda_decimal := by
  simp only [set_calcular_totales, foldl_agg, zero_add]

lemma calc_monto_exonerado_mb (doc : Documento) :
    (set_calcular_totales doc).monto_exonerado_mb =
      round_ext ((doc.detalles.map (apExonerado (aplicaIVA doc.tipo_impuesto_afectado))).sum *
        doc.tasa_cambio) 0 := by
  simp only [set_calcular_totales, foldl_agg, zero_add]

lemma calc_monto_exenta_mb (doc : Documento) :
    (set_calcular_totales doc).monto_exenta_mb =
      round_ext ((doc.detalles.map (apExenta (aplicaIVA doc.tipo_impuesto_afectado))).sum *
        doc.tasa_cambio) 0 := by
  simp only [set_calcular_totales, foldl_agg, zero_add]

lemma calc_base_gravada_5_mb (doc : Documento) :
    (set_calcular_totales doc).base_gravada_5_mb =
      round_ext (round_ext
        ((doc.detalles.map (apBase5 (aplicaIVA doc.tipo_impuesto_afectado))).sum)
        doc.moneda_decimal * doc.tasa_cambio) 0 := by
  simp only [set_calcular_totales, foldl_agg, zero_add]

lemma calc_base_gravada_10_mb (doc : Documento) :
    (set_calcular_totales doc).base_gravada_10_mb =
      round_ext (round_ext
        ((doc.detalles.map (apBase10 (aplicaIVA doc.tipo_impuesto_afectado))).sum)
        doc.moneda_decimal * doc.tasa_cambio) 0 := by
  simp only [set_calcular_totales, foldl_agg, zero_add]

lemma calc_iva_5_mb (doc : Documento) :
    (set_calcular_totales doc).iva_5_mb =
      round_ext (round_ext
        ((doc.detalles.map (apIva5 (aplicaIVA doc.tipo_impuesto_afectado))).sum)
        doc.moneda_decimal * doc.tasa_cambio) 0 := by
  simp only [set_calcular_totales, foldl_agg, zero_add]

lemma calc_iva_10_mb (doc : Documento) :
    (set_calcular_totales doc).iva_10_mb =
      round_ext (round_ext
        ((doc.detalles.map (apIva10 (aplicaIVA doc.tipo_impuesto_afectado))).sum)
        doc.moneda_decimal * doc.tasa_cambio) 0 := by
  simp only [set_calcular_totales, foldl_agg, zero_add]

lemma calc_descuento_item (doc : Documento) :
    (set_calcular_totales doc).descuento_item =
      doc.descuento_item + (doc.detalles.map apDescItem).sum := by
  simp only [set_calcular_totales, foldl_agg]

lemma calc_descuento_global (doc : Documento) :
    (set_calcular_totales doc).descuento_global =
      doc.descuento_global + (doc.detalles.map apDescGlobal).sum := by
  simp only [set_calcular_totales, foldl_agg]

/-- Mapping any function invariant under `upd_det` over the updated detalles
gives the same sum as over the originals. -/
lemma sum_map_upd (g : Bool) (tc : ℚ) (l : List DocumentoDetalle)
    (f : DocumentoDetalle → ℚ) (hf : ∀ det, f (upd_det g tc det) = f det) :
    ((l.map (upd_det g tc)).map f).sum = (l.map f).sum := by
  rw [List.map_map]
  congr 1
  exact List.map_congr_left (fun a _ => hf a)

/-! ### Claim C4: grand total is sum-then-round -/

/-- **C4.**  After aggregation the grand total is the sum of the line net
amounts, rounded once at the end to the document's decimal places — a fold of
raw nets followed by a single `round_ext`, not a sum of re-rounded terms. -/
theorem c4_grand_total_sum_then_round (doc : Documento) :
    (set_calcular_totales doc).monto_total =
      round_ext ((doc.detalles.map (fun det => det.monto_neto)).sum) doc.moneda_decimal :=
  calc_monto_total doc

/-! ### Claim C5: the grand total's base-currency mirror -/

/-- **C5, counterexample.**  On `docPeq` (two lines of net `0.3`, exchange
rate 1, one decimal place) the folded grand total is `0.6` and mirroring it
after the fold would give `round_ext (0.6 * 1) 0 = 1`, but the code's
`monto_total_mb` is the *sum of the per-line mirrors* `0 + 0 = 0`. -/
theorem c5_counterexample :
    (set_calcular_totales docPeq).monto_total = 3/5 ∧
    (set_calcular_totales docPeq).monto_total_mb = 0 ∧
    round_ext ((set_calcular_totales docPeq).monto_total *
      (set_calcular_totales docPeq).tasa_cambio) 0 = 1 := by
  have h1 : (set_calcular_totales docPeq).monto_total = 3/5 := by
    rw [calc_monto_total]
    simp only [docPeq, detPeq, List.map_cons, List.map_nil, List.sum_cons, List.sum_nil]
    rw [show (3/10 : ℚ) + (3/10 + 0) = 3/5 by norm_num]
    exact round_ext_self (3/5) 1 6 (by push_cast; norm_num)
  have h2 : (set_calcular_totales docPeq).monto_total_mb = 0 := by
    rw [calc_monto_total_mb]
    simp [docPeq, detPeq]
  refine ⟨h1, h2, ?_⟩
  rw [h1, calc_tasa_cambio, show docPeq.tasa_cambio = 1 from rfl,
    show (3/5 : ℚ) * 1 = 3/5 by norm_num]
  exact round_ext_eval 1 (by norm_num) (by push_cast; norm_num)
    (by push_cast; norm_num) (by norm_num)

/-- **C5, amended.**  The grand total's base-currency mirror is accumulated
during the fold as the sum of the per-line base-currency nets (each already
rounded to 0 places); it is *not* re-mirrored from the aggregate after the
fold — `monto_total_mb` is the only aggregate the final mirroring block does
not touch. -/
theorem c5_total_mb_is_line_sum (doc : Documento) :
    (set_calcular_totales doc).monto_total_mb =
      (doc.detalles.map (fun det => det.monto_neto_mb)).sum :=
  calc_monto_total_mb doc

/-! ### Claim C10: a second aggregation pass -/

/-- **C10.**  Running `set_calcular_totales` a second time reproduces every
document total except `descuento_item` and `descuento_global`: those two are
not reset before the fold, so each call adds the per-line discount sums on
top of the previous value. -/
theorem c10_second_pass (doc : Documento) :
    ((set_calcular_totales (set_calcular_totales doc)).monto_exonerado =
        (set_calcular_totales doc).monto_exonerado ∧
      (set_calcular_totales (set_calcular_totales doc)).monto_exenta =
        (set_calcular_totales doc).monto_exenta ∧
      (set_calcular_totales (set_calcular_totales doc)).subtotal_exo_exe =
        (set_calcular_totales doc).subtotal_exo_exe ∧
      (set_calcular_totales (set_calcular_totales doc)).subtotal_iva_5 =
        (set_calcular_totales doc).subtotal_iva_5 ∧
      (set_calcular_totales (set_calcular_totales doc)).subtotal_iva_10 =
        (set_calcular_totales doc).subtotal_iva_10 ∧
      (set_calcular_totales (set_calcular_totales doc)).subtotal_imputa_iva =
        (set_calcular_totales doc).subtotal_imputa_iva ∧
      (set_calcular_totales (set_calcular_totales doc)).st_base_gravada_imputa_iva =
        (set_calcular_totales doc).st_base_gravada_imputa_iva ∧
      (set_calcular_totales (set_calcular_totales doc)).st_liquidacion_iva_imputa =
        (set_calcular_totales doc).st_liquidacion_iva_imputa ∧
      (set_calcular_totales (set_calcular_totales doc)).st_base_no_imputa_iva =
        (set_calcular_totales doc).st_base_no_imputa_iva ∧
      (set_calcular_totales (set_calcular_totales doc)).base_gravada_5 =
        (set_calcular_totales doc).base_gravada_5 ∧
      (set_calcular_totales (set_calcular_totales doc)).base_gravada_10 =
        (set_calcular_totales doc).base_gravada_10 ∧
      (set_calcular_totales (set_calcular_totales doc)).iva_5 =
        (set_calcular_totales doc).iva_5 ∧
      (set_calcular_totales (set_calcular_totales doc)).iva_10 =
        (set_calcular_totales doc).iva_10 ∧
      (set_calcular_totales (set_calcular_totales doc)).monto_total =
        (set_calcular_totales doc).monto_total ∧
      (set_calcular_totales (set_calcular_totales doc)).monto_exonerado_mb =
        (set_calcular_totales doc).monto_exonerado_mb ∧
      (set_calcular_totales (set_calcular_totales doc)).monto_exenta_mb =
        (set_calcular_totales doc).monto_exenta_mb ∧
      (set_calcular_totales (set_calcular_totales doc)).base_gravada_5_mb =
        (set_calcular_totales doc).base_gravada_5_mb ∧
      (set_calcular_totales (set_calcular_totales doc)).base_gravada_10_mb =
        (set_calcular_totales doc).base_gravada_10_mb ∧
      (set_calcular_totales (set_calcular_totales doc)).iva_5_mb =
        (set_calcular_totales doc).iva_5_mb ∧
      (set_calcular_totales (set_calcular_totales doc)).iva_10_mb =
        (set_calcular_totales doc).iva_10_mb ∧
      (set_calcular_totales (set_calcular_totales doc)).monto_total_mb =
        (set_calcular_totales doc).monto_total_mb) ∧
    (set_calcular_totales (set_calcular_totales doc)).descuento_item =
      (set_calcular_totales doc).descuento_item +
        (doc.detalles.map (fun det => round_ext (det.descuento * det.cantidad) 8)).sum ∧
    (set_calcular_totales (set_calcular_totales doc)).descuento_global =
      (set_calcular_totales doc).descuento_global +
        (doc.detalles.map (fun det => round_ext (det.descuento_global * det.cantidad) 8)).sum := by
  refine ⟨⟨?_, ?_, ?_, ?_, ?_, ?_, ?_, ?_, ?_, ?_, ?_, ?_, ?_, ?_, ?_, ?_, ?_, ?_, ?_,
    ?_, ?_⟩, ?_, ?_⟩
  · rw [calc_monto_exonerado, calc_monto_exonerado, calc_tipo, calc_detalles]
    exact sum_map_upd _ _ _ _ (fun det => apExonerado_upd _ _ det)
  · rw [calc_monto_exenta, calc_monto_exenta, calc_tipo, calc_detalles]
    exact sum_map_upd _ _ _ _ (fun det => apExenta_upd _ _ det)
  · rw [calc_subtotal_exo_exe, calc_subtotal_exo_exe, calc_tipo, calc_moneda_decimal,
      calc_detalles]
    rw [sum_map_upd _ _ _ _ (fun det => apExonerado_upd _ _ det),
      sum_map_upd _ _ _ _ (fun det => apExenta_upd _ _ det)]
  · rw [calc_subtotal_iva_5, calc_subtotal_iva_5, calc_tipo, calc_detalles]
    exact sum_map_upd _ _ _ _ (fun det => apSub5_upd _ _ det)
  · rw [calc_subtotal_iva_10, calc_subtotal_iva_10, calc_tipo, calc_detalles]
    exact sum_map_upd _ _ _ _ (fun det => apSub10_upd _ _ det)
  · rw [calc_subtotal_imputa_iva, calc_subtotal_imputa_iva, calc_tipo, calc_detalles]
    exact sum_map_upd _ _ _ _ (fun det => apSubImputa_upd _ _ det)
  · rw [calc_st_base_gravada_imputa_iva, calc_st_base_gravada_imputa_iva, calc_tipo,
      calc_detalles]
    exact sum_map_upd _ _ _ _ (fun det => apStBaseImputa_upd _ _ det)
  · rw [calc_st_liquidacion_iva_imputa, calc_st_liquidacion_iva_imputa, calc_tipo,
      calc_detalles]
    exact sum_map_upd _ _ _ _ (fun det => apStLiqImputa_upd _ _ det)
  · rw [calc_st_base_no_imputa_iva, calc_st_base_no_imputa_iva, calc_tipo, calc_detalles]
    exact sum_map_upd _ _ _ _ (fun det => apStNoImputa_upd _ _ det)
  · rw [calc_base_gravada_5, calc_base_gravada_5, calc_tipo, calc_moneda_decimal,
      calc_detalles]
    rw [sum_map_upd _ _ _ _ (fun det => apBase5_upd _ _ det)]
  · rw [calc_base_gravada_10, calc_base_gravada_10, calc_tipo, calc_moneda_decimal,
      calc_detalles]
    rw [sum_map_upd _ _ _ _ (fun det => apBase10_upd _ _ det)]
  · rw [calc_iva_5, calc_iva_5, calc_tipo, calc_moneda_decimal, calc_detalles]
    rw [sum_map_upd _ _ _ _ (fun det => apIva5_upd _ _ det)]
  · rw [calc_iva_10, calc_iva_10, calc_tipo, calc_moneda_decimal, calc_detalles]
    rw [sum_map_upd _ _ _ _ (fun det => apIva10_upd _ _ det)]
  · rw [calc_monto_total, calc_monto_total, calc_moneda_decimal, calc_detalles]
    rw [sum_map_upd _ _ _ _ (fun det => upd_det_monto_neto _ _ det)]
  · rw [calc_monto_exonerado_mb, calc_monto_exonerado_mb, calc_tipo, calc_tasa_cambio,
      calc_detalles]
    rw [sum_map_upd _ _ _ _ (fun det => apExonerado_upd _ _ det)]
  · rw [calc_monto_exenta_mb, calc_monto_exenta_mb, calc_tipo, calc_tasa_cambio,
      calc_detalles]
    rw [sum_map_upd _ _ _ _ (fun det => apExenta_upd _ _ det)]
  · rw [calc_base_gravada_5_mb, calc_base_gravada_5_mb, calc_tipo, calc_moneda_decimal,
      calc_tasa_cambio, calc_detalles]
    rw [sum_map_upd _ _ _ _ (fun det => apBase5_upd _ _ det)]
  · rw [calc_base_gravada_10_mb, calc_base_gravada_10_mb, calc_tipo, calc_moneda_decimal,
      calc_tasa_cambio, calc_detalles]
    rw [sum_map_upd _ _ _ _ (fun det => apBase10_upd _ _ det)]
  · rw [calc_iva_5_mb, calc_iva_5_mb, calc_tipo, calc_moneda_decimal, calc_tasa_cambio,
      calc_detalles]
    rw [sum_map_upd _ _ _ _ (fun det => apIva5_upd _ _ det)]
  · rw [calc_iva_10_mb, calc_iva_10_mb, calc_tipo, calc_moneda_decimal, calc_tasa_cambio,
      calc_detalles]
    rw [sum_map_upd _ _ _ _ (fun det => apIva10_upd _ _ det)]
  · rw [calc_monto_total_mb, calc_monto_total_mb, calc_detalles]
    exact sum_map_upd _ _ _ _ (fun det => upd_det_monto_neto_mb _ _ det)
  · rw [calc_descuento_item, calc_detalles]
    congr 1
    rw [sum_map_upd _ _ _ _ (fun det => apDescItem_upd _ _ det)]
    rfl
  · rw [calc_descuento_global, calc_detalles]
    congr 1
    rw [sum_map_upd _ _ _ _ (fun det => apDescGlobal_upd _ _ det)]
    rfl

end Tabula
